import Mathlib

/-!
Verification of `mad-banana-tv`: queue entries and the chat application module.

The development embeds

* `server/media/queue_entry.go` (`CommonQueueEntry`: `Play`, `Stop`, `Playing`,
  `Played`, `PlayedFor`, `InitializeBase`),
* `server/components/apprunner/modules/chat/module.go` (the `nickname`
  accessor pair, `createMessage`, `createMessageWithPageAttachment`), and
* `server/components/configurationmanager/configuration.go` (`New`,
  `AllClientConfigurationChanges`, `ResetConfigurable`, `SetConfigurable`),

as pure functions with explicit state passing, and proves properties of them.

Conventions.  A `time.Time` is the number of nanoseconds elapsed since the
zero `Time` (January 1, year 1, 00:00 UTC), so `IsZero` is equality with `0`.
A `time.Duration` is an `int64` number of nanoseconds; `Time.Sub` saturates at
the ends of that range as the Go library documents.  The clock reading that
`time.Now()` returns is an explicit argument `now` of the functions that read
the clock.  An event is represented by the number of times `Notify` has been
called on it.
-/

namespace JungleTV

/-! ## `time` -/

/-- Instants: nanoseconds since the zero `Time`. -/
abbrev Time := Int

/-- Durations: an `int64` count of nanoseconds. -/
abbrev Duration := Int

/-- Value `minDuration` of package `time`: `-1 << 63`. -/
def minDuration : Duration := -9223372036854775808

/-- Value `maxDuration` of package `time`: `1<<63 - 1`. -/
def maxDuration : Duration := 9223372036854775807

/-- Method `Time.IsZero`: reports whether the instant is the zero `Time`. -/
def Time.IsZero (t : Time) : Bool := decide (t = 0)

/-- Method `Time.Sub`: the duration `t - u`, replaced by the maximum (minimum)
duration when it exceeds what a `Duration` can store. -/
def Time.Sub (t u : Time) : Duration :=
  if t - u < minDuration then minDuration
  else if maxDuration < t - u then maxDuration
  else t - u

/-- Function `time.Since` at clock reading `now`: shorthand for `now.Sub(t)`. -/
def Since (now t : Time) : Duration := Time.Sub now t

/-! ## Collaborators of the queue entry -/

/-- Interface `auth.User`, by what the code observes of it. -/
structure User where
  Address : String
  IsUnknown : Bool
  deriving DecidableEq

/-- Value `auth.UnknownUser`. -/
def UnknownUser : User := { Address := "", IsUnknown := true }

/-- Interface `media.Info`, by what the code observes of it. -/
structure Info where
  Title : String
  Length : Duration
  Offset : Duration
  deriving DecidableEq

/-- Interface `event.NoArgEvent`: the number of `Notify` calls made on it. -/
structure NoArgEvent where
  notified : Nat
  deriving DecidableEq

/-- Function `event.NewNoArg`. -/
def NewNoArg : NoArgEvent := { notified := 0 }

/-- Method `Notify` of an event. -/
def NoArgEvent.Notify (ev : NoArgEvent) : NoArgEvent := { notified := ev.notified + 1 }

/-! ## `CommonQueueEntry` -/

/-- Struct `CommonQueueEntry`. -/
structure CommonQueueEntry where
  queueID : String
  unskippable : Bool
  concealed : Bool
  requestedBy : User
  requestCost : Int
  requestedAt : Time
  startedPlaying : Time
  stoppedPlaying : Time
  played : Bool
  donePlaying : NoArgEvent
  movedBy : List String
  mediaInfo : Info
  deriving DecidableEq

/-- The zero value of the struct, before `InitializeBase`; the event and the
map are nil there and are represented by their empty values. -/
def CommonQueueEntry.zero : CommonQueueEntry :=
  { queueID := "", unskippable := false, concealed := false,
    requestedBy := { Address := "", IsUnknown := true }, requestCost := 0,
    requestedAt := 0, startedPlaying := 0, stoppedPlaying := 0, played := false,
    donePlaying := { notified := 0 }, movedBy := [],
    mediaInfo := { Title := "", Length := 0, Offset := 0 } }

/-- Method `InitializeBase`. -/
def CommonQueueEntry.InitializeBase (e : CommonQueueEntry) (mediaInfo : Info) :
    CommonQueueEntry :=
  { e with donePlaying := NewNoArg, movedBy := [], mediaInfo := mediaInfo,
           requestedBy := UnknownUser }

/-- A freshly initialised entry: `InitializeBase` on the zero value. -/
def CommonQueueEntry.fresh (mediaInfo : Info) : CommonQueueEntry :=
  CommonQueueEntry.zero.InitializeBase mediaInfo

/-- Method `Played`. -/
def CommonQueueEntry.Played (e : CommonQueueEntry) : Bool := e.played

/-- Method `Playing`. -/
def CommonQueueEntry.Playing (e : CommonQueueEntry) : Bool :=
  !e.startedPlaying.IsZero && !e.played

/-- Method `Play` at clock reading `now`: the entry after the assignment,
and the duration of the one-shot timer it arms. -/
def CommonQueueEntry.Play (e : CommonQueueEntry) (now : Time) :
    CommonQueueEntry × Duration :=
  ({ e with startedPlaying := now }, e.mediaInfo.Length)

/-- The body of the goroutine started by `Play`, run when its timer expires. -/
def CommonQueueEntry.timerExpired (e : CommonQueueEntry) : CommonQueueEntry :=
  if e.Playing then
    { e with played := true, donePlaying := e.donePlaying.Notify }
  else e

/-- Method `Stop` at clock reading `now`. -/
def CommonQueueEntry.Stop (e : CommonQueueEntry) (now : Time) : CommonQueueEntry :=
  if !e.Playing then e
  else
    { e with played := true, stoppedPlaying := now,
             donePlaying := e.donePlaying.Notify }

/-- Method `PlayedFor` at clock reading `now`. -/
def CommonQueueEntry.PlayedFor (e : CommonQueueEntry) (now : Time) : Duration :=
  if !e.Playing then Time.Sub e.stoppedPlaying e.startedPlaying
  else Since now e.startedPlaying

/-! ### The sequential step model

An entry together with the timers armed by `Play` that have not expired yet.
A step is a call of `Play` or `Stop` at some clock reading, or the expiry of
one pending timer; an expiry step without a pending timer cannot happen and
leaves the state as it is. -/

/-- An entry and the durations of its pending timers, oldest first. -/
structure EntryState where
  entry : CommonQueueEntry
  timers : List Duration
  deriving DecidableEq

/-- The steps of the sequential model. -/
inductive EntryStep where
  | play (now : Time)
  | stop (now : Time)
  | expire
  deriving DecidableEq

/-- State of a freshly initialised entry: no timer is pending. -/
def EntryState.init (mediaInfo : Info) : EntryState :=
  { entry := CommonQueueEntry.fresh mediaInfo, timers := [] }

/-- One step of the model. -/
def EntryState.step (s : EntryState) : EntryStep → EntryState
  | .play now => { entry := (s.entry.Play now).1, timers := s.timers ++ [(s.entry.Play now).2] }
  | .stop now => { s with entry := s.entry.Stop now }
  | .expire =>
    match s.timers with
    | [] => s
    | _ :: rest => { entry := s.entry.timerExpired, timers := rest }

/-- A finite sequence of steps. -/
def EntryState.run (s : EntryState) (steps : List EntryStep) : EntryState :=
  steps.foldl EntryState.step s

/-- Number of completion events fired so far. -/
def EntryState.fired (s : EntryState) : Nat := s.entry.donePlaying.notified

/-- Whether a step is a call of `Play`. -/
def EntryStep.isPlay : EntryStep → Bool
  | .play _ => true
  | _ => false

/-- The bookkeeping invariant: the event has fired once if `played` is set and
not at all otherwise. -/
def EntryState.firedMatchesPlayed (s : EntryState) : Prop :=
  s.fired = if s.entry.played then 1 else 0

/-! ### The timer goroutine and `Stop` side by side

`CommonQueueEntry` has no mutex and no atomic field.  The goroutine that `Play`
starts and a call of `Stop` are each a sequence of statements on the same
entry; here every statement is one step and a schedule says which of the two
paths takes the next step. -/

/-- Where the goroutine of `Play` stands once its timer has fired: before the
test `e.Playing()`, before `e.played = true`, before the `Notify`, or at its
end, reached past the `if` (`skipped`) or through its body (`finished`). -/
inductive TimerPoint where
  | check
  | setPlayed
  | notify
  | skipped
  | finished
  deriving DecidableEq

/-- Where a call of `Stop` stands: before the test `!e.Playing()`, before
`e.played = true`, before `e.stoppedPlaying = time.Now()`, before the `Notify`,
or at its end, by the early `return` (`returned`) or at the closing brace
(`finished`). -/
inductive StopPoint where
  | check
  | setPlayed
  | setStopped
  | notify
  | returned
  | finished
  deriving DecidableEq

/-- The two paths. -/
inductive Path where
  | timer
  | stop
  deriving DecidableEq

/-- The entry and the point each path has reached. -/
structure RaceState where
  entry : CommonQueueEntry
  timer : TimerPoint
  stop : StopPoint
  deriving DecidableEq

/-- Both paths about to start on the entry. -/
def RaceState.start (e : CommonQueueEntry) : RaceState :=
  { entry := e, timer := .check, stop := .check }

/-- The next statement of the chosen path; `now` is the clock reading of the
`time.Now()` in `Stop`.  A path that has ended takes no step. -/
def RaceState.step (s : RaceState) (now : Time) : Path → RaceState
  | .timer =>
    match s.timer with
    | .check =>
      if s.entry.Playing then { s with timer := .setPlayed } else { s with timer := .skipped }
    | .setPlayed => { s with entry := { s.entry with played := true }, timer := .notify }
    | .notify =>
      { s with entry := { s.entry with donePlaying := s.entry.donePlaying.Notify },
               timer := .finished }
    | .skipped => s
    | .finished => s
  | .stop =>
    match s.stop with
    | .check =>
      if !s.entry.Playing then { s with stop := .returned } else { s with stop := .setPlayed }
    | .setPlayed => { s with entry := { s.entry with played := true }, stop := .setStopped }
    | .setStopped => { s with entry := { s.entry with stoppedPlaying := now }, stop := .notify }
    | .notify =>
      { s with entry := { s.entry with donePlaying := s.entry.donePlaying.Notify },
               stop := .finished }
    | .returned => s
    | .finished => s

/-- The steps of a schedule, one after the other. -/
def RaceState.run (s : RaceState) (now : Time) (schedule : List Path) : RaceState :=
  schedule.foldl (fun st p => st.step now p) s

/-- Entry used to instantiate the theorems: a three-minute clip. -/
def exampleInfo : Info := { Title := "clip", Length := 180000000000, Offset := 0 }

/-! ## Strings

A Go string received from the script engine is valid UTF-8 and is represented
by the sequence of its runes. -/

/-- Function `unicode.IsSpace`: the Latin-1 cases of its `switch`, and the
`White_Space` table above Latin-1. -/
def IsSpace (r : Char) : Bool :=
  if r.toNat ≤ 0xFF then
    r.toNat == 0x09 || r.toNat == 0x0A || r.toNat == 0x0B || r.toNat == 0x0C ||
      r.toNat == 0x0D || r.toNat == 0x20 || r.toNat == 0x85 || r.toNat == 0xA0
  else
    r.toNat == 0x1680 || (0x2000 ≤ r.toNat && r.toNat ≤ 0x200A) || r.toNat == 0x2028 ||
      r.toNat == 0x2029 || r.toNat == 0x202F || r.toNat == 0x205F || r.toNat == 0x3000

/-- Function `unicode.IsGraphic`: in Latin-1 the `properties` table (the
printable characters and the two spaces, `U+00AD` excluded); above Latin-1
membership in `unicode.GraphicRanges`, which is the argument `inGraphicRanges`. -/
def IsGraphic (inGraphicRanges : Char → Bool) (r : Char) : Bool :=
  if r.toNat ≤ 0xFF then
    (0x20 ≤ r.toNat && r.toNat ≤ 0x7E) || (0xA0 ≤ r.toNat && r.toNat != 0xAD)
  else inGraphicRanges r

/-- Function `strings.TrimSpace`: leading, then trailing white space removed. -/
def TrimSpace (s : String) : String :=
  String.mk ((s.data.dropWhile IsSpace).reverse.dropWhile IsSpace).reverse

/-- Function `stringsx.Clean`: the runes that are not graphic removed. -/
def Clean (inGraphicRanges : Char → Bool) (s : String) : String :=
  String.mk (s.data.filter (IsGraphic inGraphicRanges))

/-- Function `utf8.RuneCountInString`. -/
def RuneCountInString (s : String) : Nat := s.data.length

/-- Function `strings.HasPrefix`. -/
def HasPrefix (s pre : String) : Bool := pre.data.isPrefixOf s.data

/-! ## The script engine -/

/-- Interface `goja.Value`: the values the module distinguishes.  `int` is the
engine's integer Number (`valueInt`, of magnitude at most `2 ^ 53`), whose
string form is its decimal representation; `object` stands for any other
value, a larger or fractional Number or a host object among them, and carries
its string conversion. -/
inductive Value where
  | undefined
  | null
  | bool (b : Bool)
  | int (i : Int)
  | string (s : String)
  | object (str : String)
  deriving DecidableEq

/-- Function `goja.IsUndefined`. -/
def IsUndefined : Value → Bool
  | .undefined => true
  | _ => false

/-- Function `goja.IsNull`. -/
def IsNull : Value → Bool
  | .null => true
  | _ => false

/-- Method `Value.String`. -/
def Value.String : Value → String
  | .undefined => "undefined"
  | .null => "null"
  | .bool b => if b then "true" else "false"
  | .int i => toString i
  | .string s => s
  | .object str => str

/-- Struct `goja.FunctionCall`. -/
structure FunctionCall where
  This : Value
  Arguments : List Value

/-- Method `FunctionCall.Argument`: the argument at `idx`, `undefined` when
there is none. -/
def FunctionCall.Argument (call : FunctionCall) (idx : Nat) : Value :=
  call.Arguments.getD idx .undefined

/-- What a native function panics with: `runtime.NewTypeError` or
`runtime.NewGoError`. -/
inductive JSError where
  | typeError (msg : String)
  | goError (err : String)
  deriving DecidableEq

/-! ## Collaborators of the chat module -/

/-- Struct `chat.Message`, by what the module reads of it; `Author` is `none`
for a nil author. -/
structure Message where
  ID : Int
  CreatedAt : Time
  Content : String
  Shadowbanned : Bool
  Author : Option User
  deriving DecidableEq

/-- Struct `MessageAttachmentApplicationPageStorage`. -/
structure MessageAttachmentApplicationPageStorage where
  ApplicationID : String
  ApplicationVersion : Time
  PageID : String
  Height : Int
  deriving DecidableEq

/-- A call made to the chat manager that can change the store or reads a
message, as recorded in the call log. -/
inductive ChatCall where
  | SetNickname (user : User) (nickname : Option String) (bypassChecks : Bool)
  | LoadMessage (id : Int)
  | CreateMessage (author : User) (content : String) (reference : Option Message)
      (attachments : List MessageAttachmentApplicationPageStorage)
  deriving DecidableEq

/-- Type `chatmanager.Manager` over a store state `σ`: each operation maps the
state to the new state and the returned values; an `error` is its text. -/
structure ChatManager (σ : Type) where
  GetNickname : σ → User → Option String
  SetNickname : σ → User → Option String → Bool → σ × Option String
  LoadMessage : σ → Int → σ × Except String Message
  CreateMessage : σ → User → String → Option Message →
    List MessageAttachmentApplicationPageStorage → σ × Except String Message

/-- The store state together with the log of the calls made so far. -/
structure World (σ : Type) where
  store : σ
  calls : List ChatCall

/-- Struct `chatModule`, with the library functions it calls whose code is
outside the repository: `ExportTo` on values that are not integers of the
range of a Go `int`,
`unicode.GraphicRanges`, `snowflake.ParseString`, the page lookup of the pages
module, and the serialisation of a message to a script value. -/
structure chatModule (σ : Type) where
  chatManager : ChatManager σ
  appUser : User
  ApplicationID : String
  ApplicationVersion : Time
  ResolvePage : String → Bool
  ParseString : String → Option Int
  exportOther : Value → Option Int
  inGraphicRanges : Char → Bool
  serializeMessage : Message → Value

/-- The smallest Go `int`, of 64 bits. -/
def minInt : Int := -9223372036854775808

/-- The largest Go `int`, of 64 bits. -/
def maxInt : Int := 9223372036854775807

/-- An integer read as a Go `int`: the `int` with the same low 64 bits. -/
def toGoInt (i : Int) : Int := (i - minInt) % 18446744073709551616 + minInt

/-- Method `Runtime.ExportTo` into an `int` variable; `none` is a returned
error.  An integer Number, which fits a Go `int`, is exported as it is.  For
any other value, a Number outside the range of an `int` among them, the
conversion is the library's and the platform's, `exportOther`, and its result
is stored in the `int`. -/
def chatModule.ExportTo {σ : Type} (m : chatModule σ) : Value → Option Int
  | .int i =>
    if minInt ≤ i ∧ i ≤ maxInt then some i else (m.exportOther (.int i)).map toGoInt
  | v => (m.exportOther v).map toGoInt

/-- Method `Runtime.ToValue` on a `*string`: `null` for nil, and for a string
the host object that wraps it, whose string form is the string. -/
def ToValue : Option String → Value
  | none => .null
  | some s => .object s

/-- Getter of the `nickname` accessor property. -/
def chatModule.nickname {σ : Type} (m : chatModule σ) (w : World σ) : Value :=
  ToValue (m.chatManager.GetNickname w.store m.appUser)

/-- Method `setApplicationNickname`, the setter of the `nickname` property. -/
def chatModule.setApplicationNickname {σ : Type} (m : chatModule σ)
    (call : FunctionCall) (w : World σ) : World σ × Except JSError Value :=
  if call.Arguments.length < 1 then
    (w, .error (.typeError "Missing argument"))
  else
    let nicknameValue := call.Argument 0
    let checked : Except JSError (Option String) :=
      if !IsUndefined nicknameValue && !IsNull nicknameValue && nicknameValue.String != "" then
        let nicknameString := TrimSpace nicknameValue.String
        let nicknameString := Clean m.inGraphicRanges nicknameString
        if RuneCountInString nicknameString < 3 then
          .error (.typeError "Nickname must be at least 3 characters long")
        else if RuneCountInString nicknameString > 16 then
          .error (.typeError "Nickname must be at most 16 characters long")
        else if HasPrefix nicknameString "ban_1" || HasPrefix nicknameString "ban_3" then
          .error (.typeError "Nickname must not look like a Banano address")
        else .ok (some nicknameString)
      else .ok none
    match checked with
    | .error e => (w, .error e)
    | .ok nickname =>
      let r := m.chatManager.SetNickname w.store m.appUser nickname true
      let w1 : World σ :=
        { store := r.1, calls := w.calls ++ [.SetNickname m.appUser nickname true] }
      match r.2 with
      | some err => (w1, .error (.goError err))
      | none => (w1, .ok .undefined)

/-- The block of `createMessage` and `createMessageWithPageAttachment` that
resolves the optional reference argument; `notAnID` is the text of the type
error, which is the only difference between the two copies. -/
def chatModule.resolveReference {σ : Type} (m : chatModule σ) (referenceValue : Value)
    (notAnID : String) (w : World σ) : World σ × Except JSError (Option Message) :=
  if !IsUndefined referenceValue && !IsNull referenceValue && referenceValue.String != "" then
    match m.ParseString referenceValue.String with
    | none => (w, .error (.typeError notAnID))
    | some id =>
      let r := m.chatManager.LoadMessage w.store id
      let w1 : World σ := { store := r.1, calls := w.calls ++ [.LoadMessage id] }
      match r.2 with
      | .error err => (w1, .error (.goError err))
      | .ok reference =>
        match reference.Author with
        | none =>
          (w1, .error (.typeError "Referenced message must not be a system message"))
        | some author =>
          if author.IsUnknown then
            (w1, .error (.typeError "Referenced message must not be a system message"))
          else (w1, .ok (some reference))
  else (w, .ok none)

/-- The call of `chatManager.CreateMessage` that ends both functions, and the
serialisation of the message it returns. -/
def chatModule.callCreateMessage {σ : Type} (m : chatModule σ) (content : String)
    (reference : Option Message)
    (attachments : List MessageAttachmentApplicationPageStorage) (w : World σ) :
    World σ × Except JSError Value :=
  let r := m.chatManager.CreateMessage w.store m.appUser content reference attachments
  let w1 : World σ :=
    { store := r.1,
      calls := w.calls ++ [.CreateMessage m.appUser content reference attachments] }
  match r.2 with
  | .error err => (w1, .error (.goError err))
  | .ok message => (w1, .ok (m.serializeMessage message))

/-- Method `createMessage`. -/
def chatModule.createMessage {σ : Type} (m : chatModule σ)
    (call : FunctionCall) (w : World σ) : World σ × Except JSError Value :=
  if call.Arguments.length < 1 then
    (w, .error (.typeError "Missing argument"))
  else
    let contentValue := call.Argument 0
    let referenceValue := call.Argument 1
    match m.resolveReference referenceValue "Second argument must be a message ID string" w with
    | (w1, .error e) => (w1, .error e)
    | (w1, .ok reference) =>
      let content := TrimSpace contentValue.String
      if content == "" then
        (w1, .error (.typeError "Message content is empty"))
      else m.callCreateMessage content reference [] w1

/-- Method `createMessageWithPageAttachment`. -/
def chatModule.createMessageWithPageAttachment {σ : Type} (m : chatModule σ)
    (call : FunctionCall) (w : World σ) : World σ × Except JSError Value :=
  if call.Arguments.length < 3 then
    (w, .error (.typeError "Missing argument"))
  else
    let contentValue := call.Argument 0
    let pageID := (call.Argument 1).String
    if !m.ResolvePage pageID then
      (w, .error (.typeError
        "Second argument to createMessageWithPageAttachment must be the ID of a published page"))
    else
      match m.ExportTo (call.Argument 2) with
      | none =>
        (w, .error (.typeError
          "Third argument to createMessageWithPageAttachment must be a non-zero integer"))
      | some height =>
        if height == 0 then
          (w, .error (.typeError
            "Third argument to createMessageWithPageAttachment must be a non-zero integer"))
        else if height > 512 then
          (w, .error (.typeError "Desired height must be lower or equal to 512 pixels"))
        else
          let attachment : MessageAttachmentApplicationPageStorage :=
            { ApplicationID := m.ApplicationID, ApplicationVersion := m.ApplicationVersion,
              PageID := pageID, Height := height }
          let referenceValue := call.Argument 3
          match m.resolveReference referenceValue
              "Fourth argument must be a message ID string" w with
          | (w1, .error e) => (w1, .error e)
          | (w1, .ok reference) =>
            let content :=
              if !IsUndefined contentValue && !IsNull contentValue then
                TrimSpace contentValue.String
              else ""
            m.callCreateMessage content reference [attachment] w1

/-! ### A chat manager and a module to instantiate the theorems -/

/-- A store that keeps, per user address, the nickname last set, and the
messages created so far, newest first. -/
structure ExampleStore where
  nicknames : List (String × Option String)
  messages : List Message
  deriving DecidableEq

/-- A chat manager over `ExampleStore`: nicknames are looked up by address,
messages are numbered from `1` in creation order. -/
def exampleChatManager : ChatManager ExampleStore where
  GetNickname := fun st user =>
    match st.nicknames.lookup user.Address with
    | some nickname => nickname
    | none => none
  SetNickname := fun st user nickname _ =>
    ({ st with nicknames := (user.Address, nickname) :: st.nicknames }, none)
  LoadMessage := fun st id =>
    match st.messages.find? (fun msg => msg.ID == id) with
    | some msg => (st, .ok msg)
    | none => (st, .error "message not found")
  CreateMessage := fun st author content _ _ =>
    let msg : Message :=
      { ID := st.messages.length + 1, CreatedAt := 0, Content := content,
        Shadowbanned := false, Author := some author }
    ({ st with messages := msg :: st.messages }, .ok msg)

/-- A module over the example manager: the only published page is `"home"`,
no rune above Latin-1 is graphic, only integers export to `int`, message IDs
are not parsed, and a message is serialised to an object named by its content. -/
def exampleModule : chatModule ExampleStore where
  chatManager := exampleChatManager
  appUser := { Address := "application", IsUnknown := false }
  ApplicationID := "app"
  ApplicationVersion := 1
  ResolvePage := fun pageID => pageID == "home"
  ParseString := fun _ => none
  exportOther := fun _ => none
  inGraphicRanges := fun _ => false
  serializeMessage := fun msg => .object msg.Content

/-- The empty store with an empty call log. -/
def exampleWorld : World ExampleStore :=
  { store := { nicknames := [], messages := [] }, calls := [] }

/-- The example module on a platform that converts a Number outside the range
of an `int` to the smallest `int`, as amd64 does: the Number `2 ^ 63`, a float
whose string form is `"9223372036854776000"`, is exported as `minInt`. -/
def overflowModule : chatModule ExampleStore :=
  { exampleModule with
    exportOther := fun v =>
      match v with
      | .int _ => some minInt
      | .object str => if str = "9223372036854776000" then some minInt else none
      | _ => none }

/-- The calls that a run from world `w` to world `w1` appended to the log. -/
def addedCalls {σ : Type} (w w1 : World σ) : List ChatCall :=
  w1.calls.drop w.calls.length

/-- Whether a logged call is a call of `CreateMessage`. -/
def ChatCall.isCreateMessage : ChatCall → Bool
  | .CreateMessage _ _ _ _ => true
  | _ => false

/-- Whether a logged call is a call of `LoadMessage`. -/
def ChatCall.isLoadMessage : ChatCall → Bool
  | .LoadMessage _ => true
  | _ => false

/-- The condition under which both functions look the reference up: the
argument is neither `undefined` nor `null` and its string form is not empty. -/
def referenceGiven (referenceValue : Value) : Bool :=
  !IsUndefined referenceValue && !IsNull referenceValue && referenceValue.String != ""

/-- The example module with message IDs `"7"`, `"8"` and `"9"` parsed. -/
def referenceModule : chatModule ExampleStore :=
  { exampleModule with
    ParseString := fun s =>
      if s == "7" then some 7 else if s == "8" then some 8 else if s == "9" then some 9
      else none }

/-- Message `7`, written by a user. -/
def userMessage : Message :=
  { ID := 7, CreatedAt := 0, Content := "hello", Shadowbanned := false,
    Author := some { Address := "ban_1user", IsUnknown := false } }

/-- Message `8`, a system message: it has no author. -/
def systemMessage : Message :=
  { ID := 8, CreatedAt := 0, Content := "welcome", Shadowbanned := false, Author := none }

/-- A store holding the messages `7` and `8`, with an empty call log; there is
no message `9`. -/
def referenceWorld : World ExampleStore :=
  { store := { nicknames := [], messages := [systemMessage, userMessage] }, calls := [] }

/-! ## The configuration manager

`server/components/configurationmanager/configuration.go`.  The maps of a
`Manager` hold pointers to configurable objects; here the objects are kept in
a list and the maps hold their indices, so that an object reached through
`configs` and through `clientConfigs` is the same object. -/

/-- Type `ConfigurationKey`, an `int`. -/
abbrev ConfigurationKey := Int

/-- Key `ApplicationName`, the first of the `iota` block. -/
def ApplicationName : ConfigurationKey := 0

/-- Key `LogoURL`. -/
def LogoURL : ConfigurationKey := 1

/-- Key `FaviconURL`. -/
def FaviconURL : ConfigurationKey := 2

/-- Interface `proto.IsConfigurationChange_ConfigurationChange`: the three
cases that `New` builds. -/
inductive IsConfigurationChange where
  | ConfigurationChange_ApplicationName (ApplicationName : String)
  | ConfigurationChange_LogoUrl (LogoUrl : String)
  | ConfigurationChange_FaviconUrl (FaviconUrl : String)
  deriving DecidableEq

/-- Struct `proto.ConfigurationChange`. -/
structure ConfigurationChange where
  ConfigurationChange : IsConfigurationChange
  deriving DecidableEq

/-- Modelled from the spec: the configurable value behind `ClientConfigurable`,
whose code (`newClientConfigurable`, `Push`, `Remove`,
`ValueToProtoIfNonDefault`) is in a file of the package that is not among the
sources.  It holds the default value, the values of the owners, most recently
pushed first, the function that turns a value into a change, and the changes
its `OnValueUpdated` event has been notified with. -/
structure ClientConfigurable where
  defaultValue : String
  entries : List (String × String)
  protoTransformer : String → IsConfigurationChange
  notified : List IsConfigurationChange

/-- Modelled from the spec: `newClientConfigurable`, a configurable with the
given default and no owner entry. -/
def newClientConfigurable (defaultValue : String)
    (protoTransformer : String → IsConfigurationChange) : ClientConfigurable :=
  { defaultValue := defaultValue, entries := [], protoTransformer := protoTransformer,
    notified := [] }

/-- Modelled from the spec: the effective value, that of the owner who pushed
most recently, and the default when no owner has an entry. -/
def ClientConfigurable.EffectiveValue (c : ClientConfigurable) : String :=
  match c.entries with
  | [] => c.defaultValue
  | (_, value) :: _ => value

/-- Modelled from the spec: the entries replaced and the effective value
recomputed, with the change event fired when the effective value changed. -/
def ClientConfigurable.setEntries (c : ClientConfigurable)
    (entries : List (String × String)) : ClientConfigurable :=
  if ({ c with entries := entries } : ClientConfigurable).EffectiveValue = c.EffectiveValue then
    { c with entries := entries }
  else
    { c with
      entries := entries,
      notified := c.notified ++
        [c.protoTransformer ({ c with entries := entries } : ClientConfigurable).EffectiveValue] }

/-- Modelled from the spec: `Push` sets or overwrites the entry of the owner. -/
def ClientConfigurable.Push (c : ClientConfigurable) (applicationID value : String) :
    ClientConfigurable :=
  c.setEntries ((applicationID, value) :: c.entries.filter (fun e => e.1 != applicationID))

/-- Modelled from the spec: `Remove` deletes the entries of the owner. -/
def ClientConfigurable.Remove (c : ClientConfigurable) (applicationID : String) :
    ClientConfigurable :=
  c.setEntries (c.entries.filter (fun e => e.1 != applicationID))

/-- Modelled from the spec: `ValueToProtoIfNonDefault`, the change for the
effective value, and nil when the effective value is the default. -/
def ClientConfigurable.ValueToProtoIfNonDefault (c : ClientConfigurable) :
    Option IsConfigurationChange :=
  if c.EffectiveValue = c.defaultValue then none
  else some (c.protoTransformer c.EffectiveValue)

/-- A call of `Push` or `Remove` on the configurable object of a given index. -/
inductive ConfigurableCall where
  | Push (object : Nat) (applicationID : String) (value : String)
  | Remove (object : Nat) (applicationID : String)
  deriving DecidableEq

/-- The configurable objects that the maps of a `Manager` point to, and the
log of the `Push` and `Remove` calls made on them. -/
structure Configurables where
  objects : List ClientConfigurable
  invoked : List ConfigurableCall

/-- Call of `Push` on the object of index `object`. -/
def Configurables.Push (h : Configurables) (object : Nat) (applicationID value : String) :
    Configurables :=
  { objects :=
      match h.objects[object]? with
      | some c => h.objects.set object (c.Push applicationID value)
      | none => h.objects,
    invoked := h.invoked ++ [.Push object applicationID value] }

/-- Call of `Remove` on the object of index `object`. -/
def Configurables.Remove (h : Configurables) (object : Nat) (applicationID : String) :
    Configurables :=
  { objects :=
      match h.objects[object]? with
      | some c => h.objects.set object (c.Remove applicationID)
      | none => h.objects,
    invoked := h.invoked ++ [.Remove object applicationID] }

/-- Struct `Manager`: its three maps, from keys to the indices of configurable
objects, each a list of entries with distinct keys.  The event
`onClientConfigurationChanged` and the goroutine of `New` that forwards the
events of the configurables to it are not part of the embedding. -/
structure Manager where
  clientConfigs : List (ConfigurationKey × Nat)
  serverConfigs : List (ConfigurationKey × Nat)
  configs : List (ConfigurationKey × Nat)
  deriving DecidableEq

/-- Assignment `m[k] = v` on a map. -/
def mapSet (m : List (ConfigurationKey × Nat)) (k : ConfigurationKey) (v : Nat) :
    List (ConfigurationKey × Nat) :=
  m.filter (fun e => e.1 != k) ++ [(k, v)]

/-- Function `New`: the manager and the configurable objects it creates. -/
def New : Manager × Configurables :=
  let objects : List ClientConfigurable :=
    [newClientConfigurable "" .ConfigurationChange_ApplicationName,
     newClientConfigurable "" .ConfigurationChange_LogoUrl,
     newClientConfigurable "" .ConfigurationChange_FaviconUrl]
  let clientConfigs : List (ConfigurationKey × Nat) :=
    [(ApplicationName, 0), (LogoURL, 1), (FaviconURL, 2)]
  let serverConfigs : List (ConfigurationKey × Nat) := []
  let configs := clientConfigs.foldl (fun acc e => mapSet acc e.1 e.2) []
  let configs := serverConfigs.foldl (fun acc e => mapSet acc e.1 e.2) configs
  ({ clientConfigs := clientConfigs, serverConfigs := serverConfigs, configs := configs },
   { objects := objects, invoked := [] })

/-- Method `AllClientConfigurationChanges`; `order` is the sequence in which
`range` visits the entries of `m.clientConfigs`, some permutation of them. -/
def Manager.AllClientConfigurationChanges (_ : Manager) (h : Configurables)
    (order : List (ConfigurationKey × Nat)) : List ConfigurationChange :=
  order.foldl
    (fun changes e =>
      match h.objects[e.2]? with
      | none => changes
      | some c =>
        match c.ValueToProtoIfNonDefault with
        | none => changes
        | some change => changes ++ [{ ConfigurationChange := change }])
    []

/-- Method `ResetConfigurable`: the objects afterwards and the returned
error, `none` for nil. -/
def Manager.ResetConfigurable (m : Manager) (key : ConfigurationKey)
    (applicationID : String) (h : Configurables) : Configurables × Option String :=
  match m.configs.lookup key with
  | none => (h, some "unknown configurable")
  | some configurable => (h.Remove configurable applicationID, none)

/-- A value together with its Go type, for the type parameter of
`SetConfigurable`. -/
inductive GoValue where
  | string (v : String)
  | int (v : Int)
  | bool (v : Bool)
  deriving DecidableEq

/-- Function `SetConfigurable`; the type assertion to `SettableConfigurable[T]`
succeeds when `T` is `string`, the type of every configurable of `New`. -/
def SetConfigurable (m : Manager) (key : ConfigurationKey) (applicationID : String)
    (value : GoValue) (h : Configurables) : Configurables × Option String :=
  match m.configs.lookup key with
  | none => (h, some "unknown configurable")
  | some configurableInterface =>
    match value with
    | .string v => (h.Push configurableInterface applicationID v, none)
    | _ => (h, some "wrong value type for configurable")

/-- The objects are those that `New` created, in whatever state: three
configurables that still carry the change constructors of their keys. -/
def Configurables.FromNew (h : Configurables) : Prop :=
  ∃ c0 c1 c2, h.objects = [c0, c1, c2] ∧
    c0.protoTransformer = .ConfigurationChange_ApplicationName ∧
    c1.protoTransformer = .ConfigurationChange_LogoUrl ∧
    c2.protoTransformer = .ConfigurationChange_FaviconUrl

/-- The logo configurable of `New` after `"app"` has pushed a logo URL. -/
def exampleLogo : ClientConfigurable :=
  (newClientConfigurable "" .ConfigurationChange_LogoUrl).Push "app"
    "https://example.org/logo.png"

/-- The objects of `New` after `"app"` has pushed a logo URL. -/
def exampleConfigurables : Configurables :=
  (SetConfigurable New.1 LogoURL "app" (.string "https://example.org/logo.png") New.2).1

/-! ## Theorems: `CommonQueueEntry` -/

theorem Time.Sub_mono_left (t1 t2 u : Time) (h : t1 ≤ t2) : Time.Sub t1 u ≤ Time.Sub t2 u := by
  unfold Time.Sub minDuration maxDuration
  unfold Time Duration at *
  split_ifs <;> omega

theorem Time.Sub_exact (t u : Time) (hlo : minDuration ≤ t - u) (hhi : t - u ≤ maxDuration) :
    Time.Sub t u = t - u := by
  unfold Time.Sub
  unfold minDuration maxDuration at *
  unfold Time Duration at *
  split_ifs <;> omega

theorem CommonQueueEntry.Playing_iff (e : CommonQueueEntry) :
    e.Playing = true ↔ e.startedPlaying ≠ 0 ∧ e.played = false := by
  simp [CommonQueueEntry.Playing, Time.IsZero]

theorem CommonQueueEntry.Stop_of_not_Playing (e : CommonQueueEntry) (now : Time)
    (h : e.Playing = false) : e.Stop now = e := by
  simp [CommonQueueEntry.Stop, h]

theorem CommonQueueEntry.Stop_of_Playing (e : CommonQueueEntry) (now : Time)
    (h : e.Playing = true) :
    e.Stop now = { e with played := true, stoppedPlaying := now,
                          donePlaying := { notified := e.donePlaying.notified + 1 } } := by
  simp only [CommonQueueEntry.Stop, h, NoArgEvent.Notify]
  rfl

theorem CommonQueueEntry.timerExpired_of_not_Playing (e : CommonQueueEntry)
    (h : e.Playing = false) : e.timerExpired = e := by
  simp [CommonQueueEntry.timerExpired, h]

theorem CommonQueueEntry.not_Playing_of_played (e : CommonQueueEntry)
    (h : e.played = true) : e.Playing = false := by
  simp [CommonQueueEntry.Playing, h]

theorem EntryState.step_played (s : EntryState) (x : EntryStep)
    (h : s.entry.played = true) : (s.step x).entry.played = true := by
  have hp := s.entry.not_Playing_of_played h
  cases x with
  | play now => simpa [EntryState.step, CommonQueueEntry.Play] using h
  | stop now => simpa [EntryState.step, CommonQueueEntry.Stop, hp] using h
  | expire =>
    cases ht : s.timers with
    | nil => simpa [EntryState.step, ht] using h
    | cons d rest => simpa [EntryState.step, ht, CommonQueueEntry.timerExpired, hp] using h

theorem EntryState.run_played (steps : List EntryStep) (s : EntryState)
    (h : s.entry.played = true) : (s.run steps).entry.played = true := by
  induction steps generalizing s with
  | nil => simpa [EntryState.run] using h
  | cons x xs ih =>
    have := ih (s.step x) (s.step_played x h)
    simpa [EntryState.run] using this

theorem EntryState.step_firedMatchesPlayed (s : EntryState) (x : EntryStep)
    (h : s.firedMatchesPlayed) : (s.step x).firedMatchesPlayed := by
  unfold EntryState.firedMatchesPlayed EntryState.fired at *
  cases x with
  | play now => simpa [EntryState.step, CommonQueueEntry.Play] using h
  | stop now =>
    by_cases hp : s.entry.Playing = true
    · have hpl : s.entry.played = false := ((s.entry.Playing_iff).1 hp).2
      simp [hpl] at h
      simp [EntryState.step, CommonQueueEntry.Stop, hp, NoArgEvent.Notify, h]
    · simp only [Bool.not_eq_true] at hp
      simpa [EntryState.step, CommonQueueEntry.Stop, hp] using h
  | expire =>
    cases ht : s.timers with
    | nil => simpa [EntryState.step, ht] using h
    | cons d rest =>
      by_cases hp : s.entry.Playing = true
      · have hpl : s.entry.played = false := ((s.entry.Playing_iff).1 hp).2
        simp [hpl] at h
        simp [EntryState.step, ht, CommonQueueEntry.timerExpired, hp, NoArgEvent.Notify, h]
      · simp only [Bool.not_eq_true] at hp
        simpa [EntryState.step, ht, CommonQueueEntry.timerExpired, hp] using h

theorem EntryState.run_firedMatchesPlayed (steps : List EntryStep) (s : EntryState)
    (h : s.firedMatchesPlayed) : (s.run steps).firedMatchesPlayed := by
  induction steps generalizing s with
  | nil => simpa [EntryState.run] using h
  | cons x xs ih =>
    have := ih (s.step x) (s.step_firedMatchesPlayed x h)
    simpa [EntryState.run] using this

theorem EntryState.init_firedMatchesPlayed (mediaInfo : Info) :
    (EntryState.init mediaInfo).firedMatchesPlayed := by
  simp [EntryState.firedMatchesPlayed, EntryState.fired, EntryState.init,
    CommonQueueEntry.fresh, CommonQueueEntry.InitializeBase, CommonQueueEntry.zero, NewNoArg]

/-- Steps other than `Play` leave an entry that is not playing as it is. -/
theorem EntryState.run_entry_of_not_Playing (steps : List EntryStep) (s : EntryState)
    (h : s.entry.Playing = false) (hs : ∀ x ∈ steps, x.isPlay = false) :
    (s.run steps).entry = s.entry := by
  induction steps generalizing s with
  | nil => simp [EntryState.run]
  | cons x xs ih =>
    have hx : x.isPlay = false := hs x (List.mem_cons_self _ _)
    have hxs : ∀ y ∈ xs, y.isPlay = false := fun y hy => hs y (List.mem_cons_of_mem _ hy)
    have hstep : (s.step x).entry = s.entry := by
      cases x with
      | play now => simp [EntryStep.isPlay] at hx
      | stop now => simp [EntryState.step, CommonQueueEntry.Stop, h]
      | expire =>
        cases ht : s.timers with
        | nil => simp [EntryState.step, ht]
        | cons d rest => simp [EntryState.step, ht, CommonQueueEntry.timerExpired, h]
    have h2 : (s.step x).entry.Playing = false := by rw [hstep]; exact h
    have := ih (s.step x) h2 hxs
    simp only [EntryState.run, List.foldl_cons] at this ⊢
    rw [this, hstep]

/-- C1: in the sequential step model (steps `Play(now)`, `Stop(now)` and the
expiry of a pending timer), along every finite sequence of steps from a freshly
initialised entry the `played` flag, once true, is still true after any further
steps, and the completion event has been fired at most once in total. -/
theorem C1_played_never_reset_fired_at_most_once (mediaInfo : Info)
    (pre post : List EntryStep) :
    (((EntryState.init mediaInfo).run pre).entry.played = true →
        (((EntryState.init mediaInfo).run pre).run post).entry.played = true) ∧
      ((EntryState.init mediaInfo).run pre).fired ≤ 1 ∧
      (((EntryState.init mediaInfo).run pre).run post).fired ≤ 1 := by
  have hinv := EntryState.run_firedMatchesPlayed pre _ (EntryState.init_firedMatchesPlayed mediaInfo)
  have hinv2 := EntryState.run_firedMatchesPlayed post _ hinv
  refine ⟨fun h => EntryState.run_played post _ h, ?_, ?_⟩
  · unfold EntryState.firedMatchesPlayed at hinv
    rw [hinv]; split <;> simp
  · unfold EntryState.firedMatchesPlayed at hinv2
    rw [hinv2]; split <;> simp

/-- C2: on a freshly initialised entry of any media length, `Play()` (at a
clock reading that is not the zero time) followed by `Stop()` while the timer
is still pending leaves `Played()` true with the completion event fired exactly
once; any later sequence of `Stop()` calls and timer expiries fires nothing
more and leaves the entry, in particular `played`, `startedPlaying` and
`stoppedPlaying`, unchanged. -/
theorem C2_play_then_stop_fires_once (mediaInfo : Info) (p s : Time)
    (hp : p.IsZero = false) (later : List EntryStep)
    (hl : ∀ x ∈ later, x.isPlay = false) :
    ((EntryState.init mediaInfo).run [.play p, .stop s]).entry.Played = true ∧
      ((EntryState.init mediaInfo).run [.play p, .stop s]).fired = 1 ∧
      ((EntryState.init mediaInfo).run [.play p, .stop s]).timers = [mediaInfo.Length] ∧
      (((EntryState.init mediaInfo).run [.play p, .stop s]).run later).fired = 1 ∧
      (((EntryState.init mediaInfo).run [.play p, .stop s]).run later).entry.played = true ∧
      (((EntryState.init mediaInfo).run [.play p, .stop s]).run later).entry.startedPlaying = p ∧
      (((EntryState.init mediaInfo).run [.play p, .stop s]).run later).entry.stoppedPlaying = s ∧
      (((EntryState.init mediaInfo).run [.play p, .stop s]).run later).entry =
        ((EntryState.init mediaInfo).run [.play p, .stop s]).entry := by
  have hp0 : ¬ p = 0 := by simpa [Time.IsZero] using hp
  have hst : ((EntryState.init mediaInfo).run [.play p, .stop s]) =
      { entry := { (CommonQueueEntry.fresh mediaInfo) with
                    startedPlaying := p, played := true, stoppedPlaying := s,
                    donePlaying := { notified := 1 } },
        timers := [mediaInfo.Length] } := by
    simp [EntryState.run, EntryState.step, EntryState.init, CommonQueueEntry.Play,
      CommonQueueEntry.Stop, CommonQueueEntry.Playing, Time.IsZero, hp0,
      CommonQueueEntry.fresh, CommonQueueEntry.InitializeBase, CommonQueueEntry.zero,
      NewNoArg, NoArgEvent.Notify]
  have hnp : ((EntryState.init mediaInfo).run [.play p, .stop s]).entry.Playing = false := by
    rw [hst]; simp [CommonQueueEntry.Playing]
  have hlater := EntryState.run_entry_of_not_Playing later _ hnp hl
  refine ⟨?_, ?_, ?_, ?_, ?_, ?_, ?_, hlater⟩
  · rw [hst]; rfl
  · rw [hst]; rfl
  · rw [hst]
  · unfold EntryState.fired; rw [hlater, hst]
  · rw [hlater, hst]
  · rw [hlater, hst]
  · rw [hlater, hst]

/-- C3: `Stop()` is idempotent: on an entry for which `Playing()` is false it
changes no field and fires no completion event, and on every entry a second
`Stop()` (at any clock reading) yields the state, and so the number of fired
events, that the first one left. -/
theorem C3_stop_idempotent (e : CommonQueueEntry) (now now2 : Time) :
    (e.Playing = false → e.Stop now = e) ∧
      (e.Stop now).Stop now2 = e.Stop now ∧
      ((e.Stop now).Stop now2).donePlaying.notified = (e.Stop now).donePlaying.notified := by
  have h1 : e.Playing = false → e.Stop now = e := e.Stop_of_not_Playing now
  have h2 : (e.Stop now).Stop now2 = e.Stop now := by
    apply CommonQueueEntry.Stop_of_not_Playing
    by_cases hp : e.Playing = true
    · rw [e.Stop_of_Playing now hp]
      simp [CommonQueueEntry.Playing]
    · simp only [Bool.not_eq_true] at hp
      rw [h1 hp]; exact hp
  exact ⟨h1, h2, by rw [h2]⟩

/-- C4: on an entry for which `Playing()` is true, `Stop()` at clock reading
`now` sets `stoppedPlaying = now` and `played = true`, fires the completion
event exactly once and leaves `startedPlaying` and every other field as it was;
afterwards `Playing()` is false and `Played()` is true. -/
theorem C4_stop_while_playing (e : CommonQueueEntry) (now : Time)
    (h : e.Playing = true) :
    (e.Stop now).stoppedPlaying = now ∧ (e.Stop now).played = true ∧
      (e.Stop now).donePlaying.notified = e.donePlaying.notified + 1 ∧
      (e.Stop now).startedPlaying = e.startedPlaying ∧
      e.Stop now = { e with played := true, stoppedPlaying := now,
                            donePlaying := { notified := e.donePlaying.notified + 1 } } ∧
      (e.Stop now).Playing = false ∧ (e.Stop now).Played = true := by
  rw [e.Stop_of_Playing now h]
  simp [CommonQueueEntry.Playing, CommonQueueEntry.Played]

/-- C5: `Play()` at clock reading `now` records `startedPlaying = now`, changes
no other field and arms one timer for the media length; when that timer
expires, if `Playing()` is still true the expiry sets `played = true` and fires
the completion event exactly once (nothing else changes), and if `Playing()` is
false the expiry changes nothing and fires nothing. -/
theorem C5_play_and_timer_expiry (e : CommonQueueEntry) (now : Time)
    (s : EntryState) (d : Duration) (rest : List Duration) (hs : s.timers = d :: rest) :
    (e.Play now).1.startedPlaying = now ∧
      (e.Play now).1 = { e with startedPlaying := now } ∧
      (e.Play now).2 = e.mediaInfo.Length ∧
      (s.step (.play now)).timers = s.timers ++ [s.entry.mediaInfo.Length] ∧
      (s.step .expire).timers = rest ∧
      (s.entry.Playing = true →
        (s.step .expire).entry =
          { s.entry with played := true,
                         donePlaying := { notified := s.entry.donePlaying.notified + 1 } }) ∧
      (s.entry.Playing = false → (s.step .expire).entry = s.entry) := by
  refine ⟨rfl, rfl, rfl, rfl, ?_, ?_, ?_⟩
  · simp [EntryState.step, hs]
  · intro h
    simp [EntryState.step, hs, CommonQueueEntry.timerExpired, h, NoArgEvent.Notify]
  · intro h
    simp [EntryState.step, hs, CommonQueueEntry.timerExpired, h]

/-- C6: at clock reading `now`, `PlayedFor()` returns `now - startedPlaying`
when `Playing()` is true, that is when `startedPlaying` is set and `played` is
false, and `stoppedPlaying - startedPlaying` otherwise; the differences are
those of `Time.Sub`, the plain difference whenever it fits a `Duration`. -/
theorem C6_PlayedFor_cases (e : CommonQueueEntry) (now : Time) :
    (e.Playing = true ↔ (e.startedPlaying ≠ 0 ∧ e.played = false)) ∧
      (e.Playing = true → e.PlayedFor now = Time.Sub now e.startedPlaying) ∧
      (e.Playing = false → e.PlayedFor now = Time.Sub e.stoppedPlaying e.startedPlaying) ∧
      (e.Playing = true → minDuration ≤ now - e.startedPlaying →
        now - e.startedPlaying ≤ maxDuration → e.PlayedFor now = now - e.startedPlaying) ∧
      (e.Playing = false → minDuration ≤ e.stoppedPlaying - e.startedPlaying →
        e.stoppedPlaying - e.startedPlaying ≤ maxDuration →
        e.PlayedFor now = e.stoppedPlaying - e.startedPlaying) := by
  refine ⟨e.Playing_iff, ?_, ?_, ?_, ?_⟩
  · intro h; simp [CommonQueueEntry.PlayedFor, h, Since]
  · intro h; simp [CommonQueueEntry.PlayedFor, h]
  · intro h hlo hhi
    simp [CommonQueueEntry.PlayedFor, h, Since, Time.Sub_exact _ _ hlo hhi]
  · intro h hlo hhi
    simp [CommonQueueEntry.PlayedFor, h, Time.Sub_exact _ _ hlo hhi]

/-- C7: on an entry that is playing, `PlayedFor()` is non-decreasing in the
clock reading; and once an entry that `Play()` at time `p` left playing has
been stopped by `Stop()` at time `s`, `PlayedFor()` is `s - p` at every clock
reading and after any later sequence of `Stop()` calls and timer expiries. -/
theorem C7_PlayedFor_monotone_then_frozen (e : CommonQueueEntry) (t1 t2 : Time)
    (st : EntryState) (p s now : Time) (later : List EntryStep) :
    (e.Playing = true → t1 ≤ t2 → e.PlayedFor t1 ≤ e.PlayedFor t2) ∧
      ((st.entry.Play p).1.Playing = true → (∀ x ∈ later, x.isPlay = false) →
        ((st.run [.play p, .stop s]).run later).entry.PlayedFor now = Time.Sub s p ∧
        (minDuration ≤ s - p → s - p ≤ maxDuration →
          ((st.run [.play p, .stop s]).run later).entry.PlayedFor now = s - p)) := by
  constructor
  · intro h h12
    simp only [CommonQueueEntry.PlayedFor, h, Since, Bool.not_true, Bool.false_eq_true, if_false]
    exact Time.Sub_mono_left t1 t2 _ h12
  · intro hplay hl
    have hent : (st.run [.play p, .stop s]).entry = (st.entry.Play p).1.Stop s := rfl
    rw [CommonQueueEntry.Stop_of_Playing _ s hplay] at hent
    have hnp : (st.run [.play p, .stop s]).entry.Playing = false := by
      rw [hent]; simp [CommonQueueEntry.Playing]
    have hlater := EntryState.run_entry_of_not_Playing later _ hnp hl
    have hval : ((st.run [.play p, .stop s]).run later).entry.PlayedFor now = Time.Sub s p := by
      rw [hlater]
      simp only [CommonQueueEntry.PlayedFor, hnp, Bool.not_false, if_true]
      rw [hent]; simp [CommonQueueEntry.Play]
    exact ⟨hval, fun hlo hhi => by rw [hval, Time.Sub_exact _ _ hlo hhi]⟩

/-! ## Theorems: the chat module -/

/-- The setter on a non-empty string argument, with the checks made on the
trimmed and cleaned string spelled out. -/
theorem chatModule.setApplicationNickname_string {σ : Type} (m : chatModule σ)
    (w : World σ) (thisValue : Value) (s : String) (rest : List Value) (hs : s ≠ "") :
    m.setApplicationNickname { This := thisValue, Arguments := .string s :: rest } w =
      if RuneCountInString (Clean m.inGraphicRanges (TrimSpace s)) < 3 then
        (w, .error (.typeError "Nickname must be at least 3 characters long"))
      else if RuneCountInString (Clean m.inGraphicRanges (TrimSpace s)) > 16 then
        (w, .error (.typeError "Nickname must be at most 16 characters long"))
      else if HasPrefix (Clean m.inGraphicRanges (TrimSpace s)) "ban_1" ||
          HasPrefix (Clean m.inGraphicRanges (TrimSpace s)) "ban_3" then
        (w, .error (.typeError "Nickname must not look like a Banano address"))
      else
        match (m.chatManager.SetNickname w.store m.appUser
            (some (Clean m.inGraphicRanges (TrimSpace s))) true).2 with
        | some err =>
          ({ store := (m.chatManager.SetNickname w.store m.appUser
                (some (Clean m.inGraphicRanges (TrimSpace s))) true).1,
             calls := w.calls ++
               [.SetNickname m.appUser (some (Clean m.inGraphicRanges (TrimSpace s))) true] },
            .error (.goError err))
        | none =>
          ({ store := (m.chatManager.SetNickname w.store m.appUser
                (some (Clean m.inGraphicRanges (TrimSpace s))) true).1,
             calls := w.calls ++
               [.SetNickname m.appUser (some (Clean m.inGraphicRanges (TrimSpace s))) true] },
            .ok .undefined) := by
  simp only [chatModule.setApplicationNickname, FunctionCall.Argument, IsUndefined, IsNull,
    Value.String, List.length_cons, List.getD_cons_zero]
  have h1 : ¬ (rest.length + 1 < 1) := by omega
  have h2 : (s != "") = true := by simpa using hs
  simp only [h1, if_false, h2, Bool.not_false, Bool.and_self, if_true]
  split_ifs <;> rfl

/-- The rule the setter applies to the trimmed and cleaned nickname, as a
proposition. -/
theorem chatModule.setApplicationNickname_accepts {σ : Type} (m : chatModule σ)
    (w : World σ) (thisValue : Value) (s : String) (rest : List Value) (hs : s ≠ "")
    (hlen : 3 ≤ RuneCountInString (Clean m.inGraphicRanges (TrimSpace s)) ∧
      RuneCountInString (Clean m.inGraphicRanges (TrimSpace s)) ≤ 16)
    (hban1 : HasPrefix (Clean m.inGraphicRanges (TrimSpace s)) "ban_1" = false)
    (hban3 : HasPrefix (Clean m.inGraphicRanges (TrimSpace s)) "ban_3" = false) :
    (m.setApplicationNickname { This := thisValue, Arguments := .string s :: rest } w).1 =
        { store := (m.chatManager.SetNickname w.store m.appUser
              (some (Clean m.inGraphicRanges (TrimSpace s))) true).1,
          calls := w.calls ++
            [.SetNickname m.appUser (some (Clean m.inGraphicRanges (TrimSpace s))) true] } ∧
      ((m.chatManager.SetNickname w.store m.appUser
            (some (Clean m.inGraphicRanges (TrimSpace s))) true).2 = none →
        (m.setApplicationNickname { This := thisValue, Arguments := .string s :: rest } w).2 =
          .ok .undefined) := by
  rw [m.setApplicationNickname_string w thisValue s rest hs]
  have h1 : ¬ RuneCountInString (Clean m.inGraphicRanges (TrimSpace s)) < 3 := by omega
  have h2 : ¬ RuneCountInString (Clean m.inGraphicRanges (TrimSpace s)) > 16 := by omega
  simp only [h1, h2, if_false, hban1, hban3, Bool.or_self, Bool.false_eq_true]
  constructor
  · split <;> rfl
  · intro h; rw [h]

theorem chatModule.setApplicationNickname_rejects {σ : Type} (m : chatModule σ)
    (w : World σ) (thisValue : Value) (s : String) (rest : List Value) (hs : s ≠ "")
    (h : ¬ ((3 ≤ RuneCountInString (Clean m.inGraphicRanges (TrimSpace s)) ∧
        RuneCountInString (Clean m.inGraphicRanges (TrimSpace s)) ≤ 16) ∧
      HasPrefix (Clean m.inGraphicRanges (TrimSpace s)) "ban_1" = false ∧
      HasPrefix (Clean m.inGraphicRanges (TrimSpace s)) "ban_3" = false)) :
    ∃ msg, m.setApplicationNickname { This := thisValue, Arguments := .string s :: rest } w =
      (w, .error (.typeError msg)) := by
  rw [m.setApplicationNickname_string w thisValue s rest hs]
  by_cases h1 : RuneCountInString (Clean m.inGraphicRanges (TrimSpace s)) < 3
  · exact ⟨_, by rw [if_pos h1]⟩
  · by_cases h2 : RuneCountInString (Clean m.inGraphicRanges (TrimSpace s)) > 16
    · exact ⟨_, by rw [if_neg h1, if_pos h2]⟩
    · by_cases h3 : (HasPrefix (Clean m.inGraphicRanges (TrimSpace s)) "ban_1" ||
          HasPrefix (Clean m.inGraphicRanges (TrimSpace s)) "ban_3") = true
      · exact ⟨_, by rw [if_neg h1, if_neg h2, if_pos h3]⟩
      · exfalso
        apply h
        simp only [Bool.or_eq_true, not_or, Bool.not_eq_true] at h3
        exact ⟨⟨by omega, by omega⟩, h3.1, h3.2⟩

/-- C8: for every non-empty string given to the nickname setter, with `n` the
input trimmed of surrounding white space and then cleaned of non-graphic
characters, the setter calls the store's `SetNickname` (once, with `n`) if and
only if `n` has between 3 and 16 runes and begins with neither `"ban_1"` nor
`"ban_3"`; otherwise it raises a type error and makes no call.  The inputs
`"  ab  "` and `"ban_123456"` are rejected. -/
theorem C8_nickname_accepted_iff_valid {σ : Type} (m : chatModule σ) (w : World σ)
    (thisValue : Value) (s n : String) (rest : List Value) (hs : s ≠ "")
    (hn : n = Clean m.inGraphicRanges (TrimSpace s)) :
    (((3 ≤ RuneCountInString n ∧ RuneCountInString n ≤ 16) ∧
          HasPrefix n "ban_1" = false ∧ HasPrefix n "ban_3" = false) ↔
        (m.setApplicationNickname { This := thisValue, Arguments := .string s :: rest } w).1.calls
          = w.calls ++ [.SetNickname m.appUser (some n) true]) ∧
      (¬ ((3 ≤ RuneCountInString n ∧ RuneCountInString n ≤ 16) ∧
          HasPrefix n "ban_1" = false ∧ HasPrefix n "ban_3" = false) →
        ∃ msg, m.setApplicationNickname { This := thisValue, Arguments := .string s :: rest } w
          = (w, .error (.typeError msg))) ∧
      m.setApplicationNickname { This := thisValue, Arguments := .string "  ab  " :: rest } w
        = (w, .error (.typeError "Nickname must be at least 3 characters long")) ∧
      m.setApplicationNickname { This := thisValue, Arguments := .string "ban_123456" :: rest } w
        = (w, .error (.typeError "Nickname must not look like a Banano address")) := by
  subst hn
  refine ⟨⟨?_, ?_⟩, ?_, ?_, ?_⟩
  · rintro ⟨hlen, hb1, hb3⟩
    rw [(m.setApplicationNickname_accepts w thisValue s rest hs hlen hb1 hb3).1]
  · intro hcalls
    by_contra hno
    obtain ⟨msg, hmsg⟩ := m.setApplicationNickname_rejects w thisValue s rest hs hno
    rw [hmsg] at hcalls
    have := congrArg List.length hcalls
    simp at this
  · exact m.setApplicationNickname_rejects w thisValue s rest hs
  · rw [m.setApplicationNickname_string w thisValue "  ab  " rest (by decide)]
    rfl
  · rw [m.setApplicationNickname_string w thisValue "ban_123456" rest (by decide)]
    rfl

/-- The example manager returns the nickname last set for a user. -/
theorem exampleChatManager_reads_last_set (st : ExampleStore) (user : User)
    (nickname : Option String) (bypassChecks : Bool) :
    (exampleChatManager.SetNickname st user nickname bypassChecks).2 = none →
      exampleChatManager.GetNickname
        (exampleChatManager.SetNickname st user nickname bypassChecks).1 user = nickname := by
  intro _
  cases nickname <;> simp [exampleChatManager, List.lookup]

/-- The setter on any argument that is neither `undefined` nor `null` and has
a non-empty string form, with the checks made on the trimmed and cleaned
string form spelled out. -/
theorem chatModule.setApplicationNickname_given {σ : Type} (m : chatModule σ)
    (w : World σ) (call : FunctionCall) (hargs : 1 ≤ call.Arguments.length)
    (hgiven : (!IsUndefined (call.Argument 0) && !IsNull (call.Argument 0) &&
      (call.Argument 0).String != "") = true) :
    m.setApplicationNickname call w =
      if RuneCountInString
          (Clean m.inGraphicRanges (TrimSpace (call.Argument 0).String)) < 3 then
        (w, .error (.typeError "Nickname must be at least 3 characters long"))
      else if RuneCountInString
          (Clean m.inGraphicRanges (TrimSpace (call.Argument 0).String)) > 16 then
        (w, .error (.typeError "Nickname must be at most 16 characters long"))
      else if HasPrefix (Clean m.inGraphicRanges (TrimSpace (call.Argument 0).String)) "ban_1" ||
          HasPrefix (Clean m.inGraphicRanges (TrimSpace (call.Argument 0).String)) "ban_3" then
        (w, .error (.typeError "Nickname must not look like a Banano address"))
      else
        match (m.chatManager.SetNickname w.store m.appUser
            (some (Clean m.inGraphicRanges (TrimSpace (call.Argument 0).String))) true).2 with
        | some err =>
          ({ store := (m.chatManager.SetNickname w.store m.appUser
                (some (Clean m.inGraphicRanges (TrimSpace (call.Argument 0).String))) true).1,
             calls := w.calls ++
               [.SetNickname m.appUser
                 (some (Clean m.inGraphicRanges (TrimSpace (call.Argument 0).String))) true] },
            .error (.goError err))
        | none =>
          ({ store := (m.chatManager.SetNickname w.store m.appUser
                (some (Clean m.inGraphicRanges (TrimSpace (call.Argument 0).String))) true).1,
             calls := w.calls ++
               [.SetNickname m.appUser
                 (some (Clean m.inGraphicRanges (TrimSpace (call.Argument 0).String))) true] },
            .ok .undefined) := by
  have h1 : ¬ call.Arguments.length < 1 := by omega
  simp only [chatModule.setApplicationNickname, h1, if_false, hgiven, if_true]
  split_ifs <;> rfl

/-- C9: for every argument that the nickname setter accepts (neither
`undefined` nor `null`, string form not empty, and valid once trimmed of
white space and cleaned of non-graphic characters), the value handed to the
store's `SetNickname` is that trimmed and cleaned string `n`, not the raw
argument; if the store reports no error and its `GetNickname` returns the
nickname last set for a user, the setter returns normally and a subsequent
read of the `nickname` property returns that value, as the host object that
wraps the stored string and has `n` as its string form.  In particular the
input `" al\tice\n"` is stored as `"alice"`. -/
theorem C9_nickname_stored_cleaned_and_read_back {σ : Type} (m : chatModule σ)
    (w : World σ) (call : FunctionCall) (n : String)
    (hargs : 1 ≤ call.Arguments.length)
    (hgiven : (!IsUndefined (call.Argument 0) && !IsNull (call.Argument 0) &&
      (call.Argument 0).String != "") = true)
    (hn : n = Clean m.inGraphicRanges (TrimSpace (call.Argument 0).String))
    (hlen : 3 ≤ RuneCountInString n ∧ RuneCountInString n ≤ 16)
    (hban1 : HasPrefix n "ban_1" = false) (hban3 : HasPrefix n "ban_3" = false) :
    (m.setApplicationNickname call w).1.calls
        = w.calls ++ [.SetNickname m.appUser (some n) true] ∧
      ((m.chatManager.SetNickname w.store m.appUser (some n) true).2 = none →
        (∀ st user nickname bypassChecks,
          (m.chatManager.SetNickname st user nickname bypassChecks).2 = none →
          m.chatManager.GetNickname
            (m.chatManager.SetNickname st user nickname bypassChecks).1 user = nickname) →
        (m.setApplicationNickname call w).2 = .ok .undefined ∧
          m.nickname (m.setApplicationNickname call w).1 = .object n ∧
          (m.nickname (m.setApplicationNickname call w).1).String = n) ∧
      (m.setApplicationNickname
          { This := call.This, Arguments := [.string " al\tice\n"] } w).1.calls
        = w.calls ++ [.SetNickname m.appUser (some "alice") true] := by
  subst hn
  have hrun := m.setApplicationNickname_given w call hargs hgiven
  have h1 : ¬ RuneCountInString
      (Clean m.inGraphicRanges (TrimSpace (call.Argument 0).String)) < 3 := by omega
  have h2 : ¬ RuneCountInString
      (Clean m.inGraphicRanges (TrimSpace (call.Argument 0).String)) > 16 := by omega
  simp only [h1, h2, if_false, hban1, hban3, Bool.or_self, Bool.false_eq_true] at hrun
  have hw : (m.setApplicationNickname call w).1 =
      { store := (m.chatManager.SetNickname w.store m.appUser
            (some (Clean m.inGraphicRanges (TrimSpace (call.Argument 0).String))) true).1,
        calls := w.calls ++
          [.SetNickname m.appUser
            (some (Clean m.inGraphicRanges (TrimSpace (call.Argument 0).String))) true] } := by
    rw [hrun]; split <;> rfl
  refine ⟨by rw [hw], ?_, ?_⟩
  · intro hnone hlaw
    have hread : m.nickname (m.setApplicationNickname call w).1 =
        .object (Clean m.inGraphicRanges (TrimSpace (call.Argument 0).String)) := by
      rw [hw]
      simp only [chatModule.nickname]
      rw [hlaw _ _ _ _ hnone]
      rfl
    refine ⟨?_, hread, ?_⟩
    · rw [hrun, hnone]
    · rw [hread]; rfl
  · have hclean : Clean m.inGraphicRanges (TrimSpace " al\tice\n") = "alice" := rfl
    have hacc := m.setApplicationNickname_accepts w call.This " al\tice\n" [] (by decide)
      (by rw [hclean]; decide) (by rw [hclean]; rfl) (by rw [hclean]; rfl)
    rw [hacc.1, hclean]

/-- The reference block never produces one of the two type errors of the
height check. -/
theorem chatModule.resolveReference_error {σ : Type} (m : chatModule σ) (v : Value)
    (w w1 : World σ) (e : JSError)
    (h : m.resolveReference v "Fourth argument must be a message ID string" w = (w1, .error e)) :
    e ≠ .typeError "Third argument to createMessageWithPageAttachment must be a non-zero integer" ∧
      e ≠ .typeError "Desired height must be lower or equal to 512 pixels" := by
  unfold chatModule.resolveReference at h
  split_ifs at h
  · split at h
    · simp only [Prod.mk.injEq, Except.error.injEq] at h
      rw [← h.2]; exact ⟨by decide, by decide⟩
    · dsimp only at h
      split at h
      · simp only [Prod.mk.injEq, Except.error.injEq] at h
        rw [← h.2]; exact ⟨by simp, by simp⟩
      · split at h
        · simp only [Prod.mk.injEq, Except.error.injEq] at h
          rw [← h.2]; exact ⟨by decide, by decide⟩
        · split_ifs at h
          · simp only [Prod.mk.injEq, Except.error.injEq] at h
            rw [← h.2]; exact ⟨by decide, by decide⟩
          · simp at h
  · simp at h

theorem toGoInt_range (i : Int) : minInt ≤ toGoInt i ∧ toGoInt i ≤ maxInt := by
  unfold toGoInt minInt maxInt
  omega

/-- The exported value is a Go `int`. -/
theorem chatModule.ExportTo_range {σ : Type} (m : chatModule σ) (v : Value) (height : Int)
    (h : m.ExportTo v = some height) : minInt ≤ height ∧ height ≤ maxInt := by
  have hmap : ∀ o : Option Int, o.map toGoInt = some height →
      minInt ≤ height ∧ height ≤ maxInt := by
    intro o ho
    cases o with
    | none => simp at ho
    | some x =>
      simp only [Option.map_some', Option.some.injEq] at ho
      rw [← ho]
      exact toGoInt_range x
  cases v with
  | int i =>
    simp only [chatModule.ExportTo] at h
    split_ifs at h with hr
    · simp only [Option.some.injEq] at h
      rw [← h]; exact hr
    · exact hmap _ h
  | undefined => exact hmap _ h
  | null => exact hmap _ h
  | bool b => exact hmap _ h
  | string s => exact hmap _ h
  | object str => exact hmap _ h

/-- An integer Number that fits a Go `int` is exported as it is. -/
theorem chatModule.ExportTo_int {σ : Type} (m : chatModule σ) (i : Int)
    (hlo : minInt ≤ i) (hhi : i ≤ maxInt) : m.ExportTo (.int i) = some i := by
  simp only [chatModule.ExportTo, hlo, hhi, and_self, if_true]

/-- C10, as the code has it: with the page resolved and the third argument
exported to the Go `int` `height` (an integer Number that fits an `int` is
exported as it is), `createMessageWithPageAttachment` rejects `height = 0`
and `height > 512` with a type error, creating no message and making no call;
for every other exported height, negative ones included, the height check
passes: the call does not end in either type error of the height check, and
when no reference is given `CreateMessage` is called once, with the trimmed
content and the attachment of that height. -/
theorem C10_height_nonzero_and_at_most_512 {σ : Type} (m : chatModule σ) (w : World σ)
    (call : FunctionCall) (height : Int) (hargs : 3 ≤ call.Arguments.length)
    (hpage : m.ResolvePage (call.Argument 1).String = true)
    (hheight : m.ExportTo (call.Argument 2) = some height) :
    (minInt ≤ height ∧ height ≤ maxInt) ∧
      (∀ number, call.Argument 2 = .int number → minInt ≤ number → number ≤ maxInt →
        height = number) ∧
      ((height = 0 ∨ 512 < height) →
        ∃ msg, m.createMessageWithPageAttachment call w = (w, .error (.typeError msg))) ∧
      ((height ≠ 0 ∧ height ≤ 512) →
        (m.createMessageWithPageAttachment call w).2 ≠ .error (.typeError
            "Third argument to createMessageWithPageAttachment must be a non-zero integer") ∧
          (m.createMessageWithPageAttachment call w).2 ≠ .error (.typeError
            "Desired height must be lower or equal to 512 pixels") ∧
          (call.Argument 3 = .undefined →
            (m.createMessageWithPageAttachment call w).1.calls =
              w.calls ++ [.CreateMessage m.appUser
                (if !IsUndefined (call.Argument 0) && !IsNull (call.Argument 0) then
                  TrimSpace (call.Argument 0).String else "")
                none
                [{ ApplicationID := m.ApplicationID, ApplicationVersion := m.ApplicationVersion,
                   PageID := (call.Argument 1).String, Height := height }]])) := by
  have h3 : ¬ call.Arguments.length < 3 := by omega
  refine ⟨m.ExportTo_range _ _ hheight, ?_, ?_⟩
  · intro number hnumber hlo hhi
    rw [hnumber, m.ExportTo_int number hlo hhi] at hheight
    exact (Option.some.inj hheight).symm
  constructor
  · rintro (h0 | hbig)
    · refine ⟨"Third argument to createMessageWithPageAttachment must be a non-zero integer", ?_⟩
      simp only [chatModule.createMessageWithPageAttachment, h3, if_false, hpage, hheight,
        Bool.not_true, Bool.false_eq_true, h0, beq_self_eq_true, if_true]
    · have hne : ¬ height = 0 := by omega
      refine ⟨"Desired height must be lower or equal to 512 pixels", ?_⟩
      simp only [chatModule.createMessageWithPageAttachment, h3, if_false, hpage, hheight,
        Bool.not_true, Bool.false_eq_true, beq_iff_eq, hne, gt_iff_lt, hbig, if_true]
  · rintro ⟨hne, hle⟩
    have hbig : ¬ 512 < height := by omega
    have hrun : m.createMessageWithPageAttachment call w =
        match m.resolveReference (call.Argument 3)
            "Fourth argument must be a message ID string" w with
        | (w1, .error e) => (w1, .error e)
        | (w1, .ok reference) =>
          m.callCreateMessage
            (if !IsUndefined (call.Argument 0) && !IsNull (call.Argument 0) then
              TrimSpace (call.Argument 0).String else "")
            reference
            [{ ApplicationID := m.ApplicationID, ApplicationVersion := m.ApplicationVersion,
               PageID := (call.Argument 1).String, Height := height }] w1 := by
      simp only [chatModule.createMessageWithPageAttachment, h3, if_false, hpage, hheight,
        Bool.not_true, Bool.false_eq_true, beq_iff_eq, hne, gt_iff_lt, hbig]
    have hnoheight : ∀ msg : String,
        (msg = "Third argument to createMessageWithPageAttachment must be a non-zero integer" ∨
          msg = "Desired height must be lower or equal to 512 pixels") →
        (m.createMessageWithPageAttachment call w).2 ≠ .error (.typeError msg) := by
      intro msg hmsg
      rw [hrun]
      rcases hres : m.resolveReference (call.Argument 3)
          "Fourth argument must be a message ID string" w with ⟨w1, (e | reference)⟩
      · have := m.resolveReference_error _ _ _ _ hres
        simp only [ne_eq, Except.error.injEq]
        rcases hmsg with h | h <;> subst h
        · exact this.1
        · exact this.2
      · simp only [chatModule.callCreateMessage]
        split <;> simp
    refine ⟨hnoheight _ (Or.inl rfl), hnoheight _ (Or.inr rfl), ?_⟩
    intro hundef
    rw [hrun, hundef]
    simp [chatModule.resolveReference, IsUndefined, chatModule.callCreateMessage]
    split <;> rfl

/-- C10 fails as stated: in the example module the height `-1`, which is not
positive, passes the height check, and the message is created with an
attachment of height `-1`. -/
theorem C10_counterexample_negative_height :
    (-1 : Int) ≤ 0 ∧
      exampleModule.ResolvePage "home" = true ∧
      exampleModule.ExportTo (.int (-1)) = some (-1) ∧
      (exampleModule.createMessageWithPageAttachment
          { This := .undefined, Arguments := [.string "hi", .string "home", .int (-1)] }
          exampleWorld).2 = .ok (.object "hi") ∧
      (exampleModule.createMessageWithPageAttachment
          { This := .undefined, Arguments := [.string "hi", .string "home", .int (-1)] }
          exampleWorld).1.calls =
        [.CreateMessage exampleModule.appUser "hi" none
          [{ ApplicationID := "app", ApplicationVersion := 1, PageID := "home",
             Height := -1 }]] ∧
      (exampleModule.createMessageWithPageAttachment
          { This := .undefined, Arguments := [.string "hi", .string "home", .int (-1)] }
          exampleWorld).1.store.messages.length = 1 := by
  refine ⟨by decide, rfl, rfl, rfl, rfl, rfl⟩

/-! ## The theorems at concrete inputs -/

/-- C1 on a run that plays, stops, lets the timer expire and plays again. -/
theorem C1_witness :
    ((EntryState.init exampleInfo).run [.play 5, .stop 7]).entry.played = true ∧
      (((EntryState.init exampleInfo).run [.play 5, .stop 7]).run
        [.expire, .play 9, .stop 11]).entry.played = true ∧
      (((EntryState.init exampleInfo).run [.play 5, .stop 7]).run
        [.expire, .play 9, .stop 11]).fired ≤ 1 :=
  ⟨rfl,
    (C1_played_never_reset_fired_at_most_once exampleInfo [.play 5, .stop 7]
      [.expire, .play 9, .stop 11]).1 rfl,
    (C1_played_never_reset_fired_at_most_once exampleInfo [.play 5, .stop 7]
      [.expire, .play 9, .stop 11]).2.2⟩

/-- C2 for `Play` at time 5 and `Stop` at time 7, followed by two more `Stop` calls and the timer expiry. -/
theorem C2_witness :
    Time.IsZero 5 = false ∧
      ((EntryState.init exampleInfo).run [.play 5, .stop 7]).fired = 1 ∧
      (((EntryState.init exampleInfo).run [.play 5, .stop 7]).run
        [.stop 9, .expire, .stop 12]).fired = 1 ∧
      (((EntryState.init exampleInfo).run [.play 5, .stop 7]).run
        [.stop 9, .expire, .stop 12]).entry.stoppedPlaying = 7 :=
  ⟨rfl,
    (C2_play_then_stop_fires_once exampleInfo 5 7 rfl [.stop 9, .expire, .stop 12]
      (by decide)).2.1,
    (C2_play_then_stop_fires_once exampleInfo 5 7 rfl [.stop 9, .expire, .stop 12]
      (by decide)).2.2.2.1,
    (C2_play_then_stop_fires_once exampleInfo 5 7 rfl [.stop 9, .expire, .stop 12]
      (by decide)).2.2.2.2.2.2.1⟩

/-- C3 on a fresh entry, which is not playing, and on an entry stopped twice. -/
theorem C3_witness :
    (CommonQueueEntry.fresh exampleInfo).Playing = false ∧
      (CommonQueueEntry.fresh exampleInfo).Stop 7 = CommonQueueEntry.fresh exampleInfo ∧
      (((CommonQueueEntry.fresh exampleInfo).Play 5).1.Stop 7).Stop 9 =
        ((CommonQueueEntry.fresh exampleInfo).Play 5).1.Stop 7 :=
  ⟨rfl, (C3_stop_idempotent (CommonQueueEntry.fresh exampleInfo) 7 9).1 rfl,
    (C3_stop_idempotent ((CommonQueueEntry.fresh exampleInfo).Play 5).1 7 9).2.1⟩

/-- C4 on an entry started at time 5 and stopped at time 7. -/
theorem C4_witness :
    ((CommonQueueEntry.fresh exampleInfo).Play 5).1.Playing = true ∧
      (((CommonQueueEntry.fresh exampleInfo).Play 5).1.Stop 7).stoppedPlaying = 7 ∧
      (((CommonQueueEntry.fresh exampleInfo).Play 5).1.Stop 7).donePlaying.notified = 1 ∧
      (((CommonQueueEntry.fresh exampleInfo).Play 5).1.Stop 7).Playing = false :=
  ⟨rfl, (C4_stop_while_playing ((CommonQueueEntry.fresh exampleInfo).Play 5).1 7 rfl).1,
    (C4_stop_while_playing ((CommonQueueEntry.fresh exampleInfo).Play 5).1 7 rfl).2.2.1,
    (C4_stop_while_playing ((CommonQueueEntry.fresh exampleInfo).Play 5).1 7 rfl).2.2.2.2.2.1⟩

/-- C5 on a fresh entry: the timer expires while playing, and after a `Stop`. -/
theorem C5_witness :
    ((EntryState.init exampleInfo).step (.play 5)).timers = [180000000000] ∧
      ((EntryState.init exampleInfo).step (.play 5)).entry.Playing = true ∧
      (((EntryState.init exampleInfo).step (.play 5)).step .expire).entry.played = true ∧
      (((EntryState.init exampleInfo).step (.play 5)).step .expire).fired = 1 ∧
      ((EntryState.init exampleInfo).run [.play 5, .stop 7]).entry.Playing = false ∧
      (((EntryState.init exampleInfo).run [.play 5, .stop 7]).step .expire).entry =
        ((EntryState.init exampleInfo).run [.play 5, .stop 7]).entry :=
  ⟨rfl, rfl,
    congrArg CommonQueueEntry.played
      ((C5_play_and_timer_expiry (CommonQueueEntry.fresh exampleInfo) 5
        ((EntryState.init exampleInfo).step (.play 5)) 180000000000 [] rfl).2.2.2.2.2.1 rfl),
    congrArg (fun e => e.donePlaying.notified)
      ((C5_play_and_timer_expiry (CommonQueueEntry.fresh exampleInfo) 5
        ((EntryState.init exampleInfo).step (.play 5)) 180000000000 [] rfl).2.2.2.2.2.1 rfl),
    rfl,
    (C5_play_and_timer_expiry (CommonQueueEntry.fresh exampleInfo) 5
      ((EntryState.init exampleInfo).run [.play 5, .stop 7]) 180000000000 [] rfl).2.2.2.2.2.2
      rfl⟩

/-- C6 on an entry started at time 5, read at time 12 while playing and after a `Stop` at time 8. -/
theorem C6_witness :
    ((CommonQueueEntry.fresh exampleInfo).Play 5).1.Playing = true ∧
      ((CommonQueueEntry.fresh exampleInfo).Play 5).1.PlayedFor 12 = 12 - 5 ∧
      (((CommonQueueEntry.fresh exampleInfo).Play 5).1.Stop 8).Playing = false ∧
      (((CommonQueueEntry.fresh exampleInfo).Play 5).1.Stop 8).PlayedFor 12 = 8 - 5 :=
  ⟨rfl,
    (C6_PlayedFor_cases ((CommonQueueEntry.fresh exampleInfo).Play 5).1 12).2.2.2.1 rfl
      (by decide) (by decide),
    rfl,
    (C6_PlayedFor_cases (((CommonQueueEntry.fresh exampleInfo).Play 5).1.Stop 8) 12).2.2.2.2 rfl
      (by decide) (by decide)⟩

/-- C7 on an entry started at time 5: readings at 6 and 9 while playing, and after a `Stop` at time 8. -/
theorem C7_witness :
    ((CommonQueueEntry.fresh exampleInfo).Play 5).1.Playing = true ∧
      ((CommonQueueEntry.fresh exampleInfo).Play 5).1.PlayedFor 6 ≤
        ((CommonQueueEntry.fresh exampleInfo).Play 5).1.PlayedFor 9 ∧
      (((EntryState.init exampleInfo).run [.play 5, .stop 8]).run
        [.stop 9, .expire]).entry.PlayedFor 100 = 8 - 5 :=
  ⟨rfl,
    (C7_PlayedFor_monotone_then_frozen ((CommonQueueEntry.fresh exampleInfo).Play 5).1 6 9
      (EntryState.init exampleInfo) 5 8 100 [.stop 9, .expire]).1 rfl (by decide),
    ((C7_PlayedFor_monotone_then_frozen ((CommonQueueEntry.fresh exampleInfo).Play 5).1 6 9
      (EntryState.init exampleInfo) 5 8 100 [.stop 9, .expire]).2 rfl (by decide)).2
      (by decide) (by decide)⟩

/-- C8 in the example module: `"alice"` is accepted, a string that trims to `"ab"` is rejected. -/
theorem C8_witness :
    "alice" ≠ "" ∧
      (exampleModule.setApplicationNickname
          { This := .undefined, Arguments := [.string "alice"] } exampleWorld).1.calls =
        [.SetNickname exampleModule.appUser (some "alice") true] ∧
      (∃ msg, exampleModule.setApplicationNickname
          { This := .undefined, Arguments := [.string " a\tb\n"] } exampleWorld =
        (exampleWorld, .error (.typeError msg))) :=
  ⟨by decide,
    (C8_nickname_accepted_iff_valid exampleModule exampleWorld .undefined "alice" "alice" []
      (by decide) rfl).1.1 ⟨⟨by decide, by decide⟩, rfl, rfl⟩,
    (C8_nickname_accepted_iff_valid exampleModule exampleWorld .undefined " a\tb\n" "ab" []
      (by decide) rfl).2.1 (by decide)⟩

/-- C9 in the example module: `"alice"` is stored and read back, and an input
with white space around it and a TAB inside it is stored as `"alice"`. -/
theorem C9_witness :
    (exampleModule.setApplicationNickname
        { This := .undefined, Arguments := [.string "alice"] } exampleWorld).1.calls =
      [.SetNickname exampleModule.appUser (some "alice") true] ∧
      (exampleModule.setApplicationNickname
        { This := .undefined, Arguments := [.string "alice"] } exampleWorld).2 =
        .ok .undefined ∧
      (exampleModule.nickname
        (exampleModule.setApplicationNickname
          { This := .undefined, Arguments := [.string "alice"] } exampleWorld).1).String =
        "alice" ∧
      (exampleModule.setApplicationNickname
        { This := .undefined, Arguments := [.string " al\tice\n"] } exampleWorld).1.calls =
      [.SetNickname exampleModule.appUser (some "alice") true] ∧
      exampleModule.nickname
        (exampleModule.setApplicationNickname
          { This := .undefined, Arguments := [.string " al\tice\n"] } exampleWorld).1 =
        .object "alice" :=
  ⟨(C9_nickname_stored_cleaned_and_read_back exampleModule exampleWorld
      { This := .undefined, Arguments := [.string "alice"] } "alice" (by decide) rfl rfl
      ⟨by decide, by decide⟩ rfl rfl).1,
    ((C9_nickname_stored_cleaned_and_read_back exampleModule exampleWorld
      { This := .undefined, Arguments := [.string "alice"] } "alice" (by decide) rfl rfl
      ⟨by decide, by decide⟩ rfl rfl).2.1 rfl exampleChatManager_reads_last_set).1,
    ((C9_nickname_stored_cleaned_and_read_back exampleModule exampleWorld
      { This := .undefined, Arguments := [.string "alice"] } "alice" (by decide) rfl rfl
      ⟨by decide, by decide⟩ rfl rfl).2.1 rfl exampleChatManager_reads_last_set).2.2,
    (C9_nickname_stored_cleaned_and_read_back exampleModule exampleWorld
      { This := .undefined, Arguments := [.string " al\tice\n"] } "alice" (by decide) rfl rfl
      ⟨by decide, by decide⟩ rfl rfl).1,
    ((C9_nickname_stored_cleaned_and_read_back exampleModule exampleWorld
      { This := .undefined, Arguments := [.string " al\tice\n"] } "alice" (by decide) rfl rfl
      ⟨by decide, by decide⟩ rfl rfl).2.1 rfl exampleChatManager_reads_last_set).2.1⟩

/-- C10 in the example module: height `0` is rejected and height `-20`
reaches `CreateMessage`; on a platform that converts a Number outside the
range of an `int` to the smallest `int`, the Number `2 ^ 63` is exported as
that negative `int` and reaches `CreateMessage` too. -/
theorem C10_witness :
    (∃ msg, exampleModule.createMessageWithPageAttachment
        { This := .undefined, Arguments := [.string "hi", .string "home", .int 0] }
        exampleWorld = (exampleWorld, .error (.typeError msg))) ∧
      (exampleModule.createMessageWithPageAttachment
        { This := .undefined, Arguments := [.string " hi ", .string "home", .int (-20)] }
        exampleWorld).1.calls =
        [.CreateMessage exampleModule.appUser "hi" none
          [{ ApplicationID := "app", ApplicationVersion := 1, PageID := "home",
             Height := -20 }]] ∧
      overflowModule.ExportTo (.object "9223372036854776000") =
        some (-9223372036854775808) ∧
      (overflowModule.createMessageWithPageAttachment
        { This := .undefined,
          Arguments := [.string "hi", .string "home", .object "9223372036854776000"] }
        exampleWorld).1.calls =
        [.CreateMessage overflowModule.appUser "hi" none
          [{ ApplicationID := "app", ApplicationVersion := 1, PageID := "home",
             Height := -9223372036854775808 }]] :=
  ⟨(C10_height_nonzero_and_at_most_512 exampleModule exampleWorld
      { This := .undefined, Arguments := [.string "hi", .string "home", .int 0] } 0
      (by decide) rfl rfl).2.2.1 (Or.inl rfl),
    ((C10_height_nonzero_and_at_most_512 exampleModule exampleWorld
      { This := .undefined, Arguments := [.string " hi ", .string "home", .int (-20)] } (-20)
      (by decide) rfl rfl).2.2.2 ⟨by decide, by decide⟩).2.2 rfl,
    rfl,
    ((C10_height_nonzero_and_at_most_512 overflowModule exampleWorld
      { This := .undefined,
        Arguments := [.string "hi", .string "home", .object "9223372036854776000"] }
      (-9223372036854775808) (by decide) rfl (by decide)).2.2.2 ⟨by decide, by decide⟩).2.2
      rfl⟩


/-- C17: an entry whose `stoppedPlaying` is unset and that is not played,
started by `Play()` at a time `p` after the zero time and completed by the
expiry of its timer with no `Stop()` call, keeps `stoppedPlaying` unset, and
`PlayedFor()` returns the zero time minus `p` at every clock reading: a
negative constant, so neither a media length (which is not negative) nor the
time elapsed since `p` at a reading that is not before `p`. -/
theorem C17_PlayedFor_after_timer_expiry (st : EntryState) (p now : Time)
    (later : List EntryStep) (hstopped : st.entry.stoppedPlaying = 0)
    (hplayed : st.entry.played = false) (hp : 0 < p)
    (hlater : ∀ x ∈ later, x = EntryStep.expire) :
    ((st.run [.play p, .expire]).run later).entry.played = true ∧
      ((st.run [.play p, .expire]).run later).entry.stoppedPlaying = 0 ∧
      ((st.run [.play p, .expire]).run later).entry.PlayedFor now = Time.Sub 0 p ∧
      ((st.run [.play p, .expire]).run later).entry.PlayedFor now < 0 ∧
      (0 ≤ st.entry.mediaInfo.Length →
        ((st.run [.play p, .expire]).run later).entry.PlayedFor now ≠
          st.entry.mediaInfo.Length) ∧
      (p ≤ now →
        ((st.run [.play p, .expire]).run later).entry.PlayedFor now ≠ Since now p) ∧
      (9223372036854775808 ≤ p →
        ((st.run [.play p, .expire]).run later).entry.PlayedFor now = minDuration) := by
  have hp0 : ¬ p = 0 := by unfold Time at *; omega
  have hent : (st.run [.play p, .expire]).entry =
      { st.entry with startedPlaying := p, played := true,
                      donePlaying := { notified := st.entry.donePlaying.notified + 1 } } := by
    cases ht : st.timers with
    | nil =>
      simp [EntryState.run, EntryState.step, ht, CommonQueueEntry.Play,
        CommonQueueEntry.timerExpired, CommonQueueEntry.Playing, Time.IsZero, hp0, hplayed,
        NoArgEvent.Notify]
    | cons d rest =>
      simp [EntryState.run, EntryState.step, ht, CommonQueueEntry.Play,
        CommonQueueEntry.timerExpired, CommonQueueEntry.Playing, Time.IsZero, hp0, hplayed,
        NoArgEvent.Notify]
  have hnp : (st.run [.play p, .expire]).entry.Playing = false := by
    rw [hent]; simp [CommonQueueEntry.Playing]
  have hnoplay : ∀ x ∈ later, x.isPlay = false := by
    intro x hx; rw [hlater x hx]; rfl
  have hl := EntryState.run_entry_of_not_Playing later _ hnp hnoplay
  have hval : ((st.run [.play p, .expire]).run later).entry.PlayedFor now = Time.Sub 0 p := by
    rw [hl]
    simp only [CommonQueueEntry.PlayedFor, hnp, Bool.not_false, if_true]
    rw [hent]; simp [hstopped]
  have hneg : Time.Sub 0 p < 0 := by
    unfold Time.Sub minDuration maxDuration
    unfold Time Duration at *
    split_ifs <;> omega
  have hsince : p ≤ now → 0 ≤ Since now p := by
    intro h
    unfold Since Time.Sub minDuration maxDuration
    unfold Time Duration at *
    split_ifs <;> omega
  refine ⟨by rw [hl, hent], by rw [hl, hent]; exact hstopped, hval, by rw [hval]; exact hneg,
    ?_, ?_, ?_⟩
  · intro hlen heq
    rw [hval] at heq
    unfold Time Duration at *
    omega
  · intro hle heq
    rw [hval] at heq
    have := hsince hle
    unfold Time Duration at *
    omega
  · intro hbig
    rw [hval]
    unfold Time.Sub minDuration maxDuration
    unfold Time Duration at *
    split_ifs <;> omega


/-! ## Theorems: `createMessage` and `createMessageWithPageAttachment` -/

theorem addedCalls_self {σ : Type} (w : World σ) : addedCalls w w = [] := by
  simp [addedCalls]

theorem addedCalls_append {σ : Type} (w : World σ) (store : σ) (calls : List ChatCall) :
    addedCalls w { store := store, calls := w.calls ++ calls } = calls := by
  simp [addedCalls]

/-- The outcomes of the reference block: no lookup when no reference is given;
a type error when the reference does not parse; and after the lookup the
store's error, a type error for a message without a known author, or the
loaded message. -/
theorem chatModule.resolveReference_cases {σ : Type} (m : chatModule σ) (v : Value)
    (notAnID : String) (w : World σ) :
    (referenceGiven v = false ∧ m.resolveReference v notAnID w = (w, .ok none)) ∨
      (referenceGiven v = true ∧ m.ParseString v.String = none ∧
        m.resolveReference v notAnID w = (w, .error (.typeError notAnID))) ∨
      (∃ id, referenceGiven v = true ∧ m.ParseString v.String = some id ∧
        ((∃ err, (m.chatManager.LoadMessage w.store id).2 = .error err ∧
            m.resolveReference v notAnID w =
              ({ store := (m.chatManager.LoadMessage w.store id).1,
                 calls := w.calls ++ [.LoadMessage id] }, .error (.goError err))) ∨
          (∃ reference, (m.chatManager.LoadMessage w.store id).2 = .ok reference ∧
            (reference.Author = none ∨
              ∃ author, reference.Author = some author ∧ author.IsUnknown = true) ∧
            m.resolveReference v notAnID w =
              ({ store := (m.chatManager.LoadMessage w.store id).1,
                 calls := w.calls ++ [.LoadMessage id] },
                .error (.typeError "Referenced message must not be a system message"))) ∨
          (∃ reference author, (m.chatManager.LoadMessage w.store id).2 = .ok reference ∧
            reference.Author = some author ∧ author.IsUnknown = false ∧
            m.resolveReference v notAnID w =
              ({ store := (m.chatManager.LoadMessage w.store id).1,
                 calls := w.calls ++ [.LoadMessage id] }, .ok (some reference))))) := by
  by_cases hg : referenceGiven v = true
  · have hg2 : (!IsUndefined v && !IsNull v && v.String != "") = true := hg
    right
    cases hparse : m.ParseString v.String with
    | none =>
      left
      refine ⟨hg, rfl, ?_⟩
      simp only [chatModule.resolveReference, hg2, if_true, hparse]
    | some id =>
      right
      refine ⟨id, hg, rfl, ?_⟩
      cases hload : (m.chatManager.LoadMessage w.store id).2 with
      | error err =>
        left
        refine ⟨err, rfl, ?_⟩
        simp only [chatModule.resolveReference, hg2, if_true, hparse, hload]
      | ok reference =>
        right
        cases hauthor : reference.Author with
        | none =>
          left
          refine ⟨reference, rfl, Or.inl hauthor, ?_⟩
          simp only [chatModule.resolveReference, hg2, if_true, hparse, hload, hauthor]
        | some author =>
          by_cases hunknown : author.IsUnknown = true
          · left
            refine ⟨reference, rfl, Or.inr ⟨author, hauthor, hunknown⟩, ?_⟩
            simp only [chatModule.resolveReference, hg2, if_true, hparse, hload, hauthor,
              hunknown]
          · right
            simp only [Bool.not_eq_true] at hunknown
            refine ⟨reference, author, rfl, hauthor, hunknown, ?_⟩
            simp only [chatModule.resolveReference, hg2, if_true, hparse, hload, hauthor,
              hunknown, Bool.false_eq_true, if_false]
  · left
    simp only [Bool.not_eq_true] at hg
    have hg2 : (!IsUndefined v && !IsNull v && v.String != "") = false := hg
    refine ⟨hg, ?_⟩
    simp only [chatModule.resolveReference, hg2, Bool.false_eq_true, if_false]

/-- The reference block adds no call of `CreateMessage` to the log. -/
theorem chatModule.resolveReference_added {σ : Type} (m : chatModule σ) (v : Value)
    (notAnID : String) (w : World σ) :
    addedCalls w (m.resolveReference v notAnID w).1 = [] ∨
      ∃ id, (m.resolveReference v notAnID w).1 =
          { store := (m.chatManager.LoadMessage w.store id).1,
            calls := w.calls ++ [.LoadMessage id] } := by
  rcases m.resolveReference_cases v notAnID w with
    ⟨_, h⟩ | ⟨_, _, h⟩ | ⟨id, _, _, ⟨err, _, h⟩ | ⟨reference, _, _, h⟩ | ⟨reference, author, _, _, _, h⟩⟩
  · left; rw [h]; exact addedCalls_self w
  · left; rw [h]; exact addedCalls_self w
  · right; exact ⟨id, by rw [h]⟩
  · right; exact ⟨id, by rw [h]⟩
  · right; exact ⟨id, by rw [h]⟩

theorem chatModule.callCreateMessage_calls {σ : Type} (m : chatModule σ) (content : String)
    (reference : Option Message) (attachments : List MessageAttachmentApplicationPageStorage)
    (w : World σ) :
    (m.callCreateMessage content reference attachments w).1 =
      { store := (m.chatManager.CreateMessage w.store m.appUser content reference
          attachments).1,
        calls := w.calls ++ [.CreateMessage m.appUser content reference attachments] } := by
  simp only [chatModule.callCreateMessage]
  split <;> rfl

theorem chatModule.createMessage_of_error {σ : Type} (m : chatModule σ)
    (call : FunctionCall) (w w1 : World σ) (e : JSError)
    (hargs : 1 ≤ call.Arguments.length)
    (hrr : m.resolveReference (call.Argument 1)
      "Second argument must be a message ID string" w = (w1, .error e)) :
    m.createMessage call w = (w1, .error e) := by
  have h1 : ¬ call.Arguments.length < 1 := by omega
  simp only [chatModule.createMessage, h1, if_false, hrr]

theorem chatModule.createMessage_of_ok {σ : Type} (m : chatModule σ)
    (call : FunctionCall) (w w1 : World σ) (reference : Option Message)
    (hargs : 1 ≤ call.Arguments.length)
    (hrr : m.resolveReference (call.Argument 1)
      "Second argument must be a message ID string" w = (w1, .ok reference)) :
    m.createMessage call w =
      if TrimSpace (call.Argument 0).String = "" then
        (w1, .error (.typeError "Message content is empty"))
      else m.callCreateMessage (TrimSpace (call.Argument 0).String) reference [] w1 := by
  have h1 : ¬ call.Arguments.length < 1 := by omega
  simp only [chatModule.createMessage, h1, if_false, hrr, beq_iff_eq]


theorem chatModule.createMessageWithPageAttachment_of_error {σ : Type} (m : chatModule σ)
    (call : FunctionCall) (w w1 : World σ) (e : JSError) (height : Int)
    (hargs : 3 ≤ call.Arguments.length)
    (hpage : m.ResolvePage (call.Argument 1).String = true)
    (hheight : m.ExportTo (call.Argument 2) = some height)
    (hne : height ≠ 0) (hle : height ≤ 512)
    (hrr : m.resolveReference (call.Argument 3)
      "Fourth argument must be a message ID string" w = (w1, .error e)) :
    m.createMessageWithPageAttachment call w = (w1, .error e) := by
  have h3 : ¬ call.Arguments.length < 3 := by omega
  have hbig : ¬ 512 < height := by omega
  simp only [chatModule.createMessageWithPageAttachment, h3, if_false, hpage, hheight,
    Bool.not_true, Bool.false_eq_true, beq_iff_eq, hne, gt_iff_lt, hbig, hrr]

theorem chatModule.createMessageWithPageAttachment_of_ok {σ : Type} (m : chatModule σ)
    (call : FunctionCall) (w w1 : World σ) (reference : Option Message) (height : Int)
    (hargs : 3 ≤ call.Arguments.length)
    (hpage : m.ResolvePage (call.Argument 1).String = true)
    (hheight : m.ExportTo (call.Argument 2) = some height)
    (hne : height ≠ 0) (hle : height ≤ 512)
    (hrr : m.resolveReference (call.Argument 3)
      "Fourth argument must be a message ID string" w = (w1, .ok reference)) :
    m.createMessageWithPageAttachment call w =
      m.callCreateMessage
        (if !IsUndefined (call.Argument 0) && !IsNull (call.Argument 0) then
          TrimSpace (call.Argument 0).String else "")
        reference
        [{ ApplicationID := m.ApplicationID, ApplicationVersion := m.ApplicationVersion,
           PageID := (call.Argument 1).String, Height := height }] w1 := by
  have h3 : ¬ call.Arguments.length < 3 := by omega
  have hbig : ¬ 512 < height := by omega
  simp only [chatModule.createMessageWithPageAttachment, h3, if_false, hpage, hheight,
    Bool.not_true, Bool.false_eq_true, beq_iff_eq, hne, gt_iff_lt, hbig, hrr]

/-- When a check before the reference block fails, the call ends in a type
error and leaves the world as it was. -/
theorem chatModule.createMessageWithPageAttachment_early {σ : Type} (m : chatModule σ)
    (call : FunctionCall) (w : World σ)
    (h : ¬ (3 ≤ call.Arguments.length ∧ m.ResolvePage (call.Argument 1).String = true ∧
      ∃ height, m.ExportTo (call.Argument 2) = some height ∧ height ≠ 0 ∧ height ≤ 512)) :
    ∃ msg, m.createMessageWithPageAttachment call w = (w, .error (.typeError msg)) := by
  by_cases h3 : call.Arguments.length < 3
  · exact ⟨_, by simp only [chatModule.createMessageWithPageAttachment, h3, if_true]; rfl⟩
  · by_cases hpage : m.ResolvePage (call.Argument 1).String = true
    · cases hheight : m.ExportTo (call.Argument 2) with
      | none =>
        exact ⟨_, by
          simp only [chatModule.createMessageWithPageAttachment, h3, if_false, hpage, hheight,
            Bool.not_true, Bool.false_eq_true]
          rfl⟩
      | some height =>
        by_cases h0 : height = 0
        · exact ⟨_, by
            simp only [chatModule.createMessageWithPageAttachment, h3, if_false, hpage,
              hheight, Bool.not_true, Bool.false_eq_true, beq_iff_eq, h0, if_true]
            rfl⟩
        · by_cases hbig : 512 < height
          · exact ⟨_, by
              simp only [chatModule.createMessageWithPageAttachment, h3, if_false, hpage,
                hheight, Bool.not_true, Bool.false_eq_true, beq_iff_eq, h0, gt_iff_lt, hbig,
                if_true]
              rfl⟩
          · exfalso
            exact h ⟨by omega, hpage, height, hheight, h0, by omega⟩
    · simp only [Bool.not_eq_true] at hpage
      exact ⟨_, by
        simp only [chatModule.createMessageWithPageAttachment, h3, if_false, hpage,
          Bool.not_false, if_true]
        rfl⟩

/-- C11, as the code has it: a call of `createMessage` whose content is empty
after trimming fails and makes no call of the store's `CreateMessage`; the
failure is a type error, except that when the store's `LoadMessage` fails on
the reference argument its error is raised instead; when the reference block
succeeds the failure is the type error for empty content.  For every other
content, a call of `CreateMessage` passes the trimmed content, and it is made
whenever the reference block succeeds. -/
theorem C11_createMessage_content {σ : Type} (m : chatModule σ) (w : World σ)
    (call : FunctionCall) (hargs : 1 ≤ call.Arguments.length) :
    (TrimSpace (call.Argument 0).String = "" →
        (∃ e, (m.createMessage call w).2 = .error e) ∧
        (∀ c ∈ addedCalls w (m.createMessage call w).1, c.isCreateMessage = false) ∧
        ((∃ msg, (m.createMessage call w).2 = .error (.typeError msg)) ∨
          ∃ id err, referenceGiven (call.Argument 1) = true ∧
            m.ParseString (call.Argument 1).String = some id ∧
            (m.chatManager.LoadMessage w.store id).2 = .error err ∧
            (m.createMessage call w).2 = .error (.goError err)) ∧
        (∀ w1 reference,
          m.resolveReference (call.Argument 1)
            "Second argument must be a message ID string" w = (w1, .ok reference) →
          m.createMessage call w = (w1, .error (.typeError "Message content is empty")))) ∧
      (TrimSpace (call.Argument 0).String ≠ "" →
        (∀ c ∈ addedCalls w (m.createMessage call w).1, c.isCreateMessage = true →
          ∃ reference,
            c = .CreateMessage m.appUser (TrimSpace (call.Argument 0).String) reference []) ∧
        (∀ w1 reference,
          m.resolveReference (call.Argument 1)
            "Second argument must be a message ID string" w = (w1, .ok reference) →
          m.createMessage call w =
            m.callCreateMessage (TrimSpace (call.Argument 0).String) reference [] w1)) := by
  constructor
  · intro hempty
    have hok : ∀ w1 reference,
        m.resolveReference (call.Argument 1)
          "Second argument must be a message ID string" w = (w1, .ok reference) →
        m.createMessage call w = (w1, .error (.typeError "Message content is empty")) := by
      intro w1 reference hrr
      rw [m.createMessage_of_ok call w w1 reference hargs hrr, if_pos hempty]
    refine ⟨?_, ?_, ?_, hok⟩
    · rcases m.resolveReference_cases (call.Argument 1)
          "Second argument must be a message ID string" w with
        ⟨_, h⟩ | ⟨_, _, h⟩ | ⟨id, _, _, ⟨err, _, h⟩ | ⟨reference, _, _, h⟩ |
          ⟨reference, author, _, _, _, h⟩⟩
      · exact ⟨_, by rw [hok _ _ h]⟩
      · exact ⟨_, by rw [m.createMessage_of_error call w _ _ hargs h]⟩
      · exact ⟨_, by rw [m.createMessage_of_error call w _ _ hargs h]⟩
      · exact ⟨_, by rw [m.createMessage_of_error call w _ _ hargs h]⟩
      · exact ⟨_, by rw [hok _ _ h]⟩
    · rcases m.resolveReference_cases (call.Argument 1)
          "Second argument must be a message ID string" w with
        ⟨_, h⟩ | ⟨_, _, h⟩ | ⟨id, _, _, ⟨err, _, h⟩ | ⟨reference, _, _, h⟩ |
          ⟨reference, author, _, _, _, h⟩⟩
      · rw [hok _ _ h]; simp [addedCalls]
      · rw [m.createMessage_of_error call w _ _ hargs h]; simp [addedCalls]
      · rw [m.createMessage_of_error call w _ _ hargs h]
        simp [addedCalls, ChatCall.isCreateMessage]
      · rw [m.createMessage_of_error call w _ _ hargs h]
        simp [addedCalls, ChatCall.isCreateMessage]
      · rw [hok _ _ h]
        simp [addedCalls, ChatCall.isCreateMessage]
    · rcases m.resolveReference_cases (call.Argument 1)
          "Second argument must be a message ID string" w with
        ⟨_, h⟩ | ⟨_, _, h⟩ | ⟨id, hg, hparse, ⟨err, hload, h⟩ | ⟨reference, _, _, h⟩ |
          ⟨reference, author, _, _, _, h⟩⟩
      · exact Or.inl ⟨_, by rw [hok _ _ h]⟩
      · exact Or.inl ⟨_, by rw [m.createMessage_of_error call w _ _ hargs h]⟩
      · exact Or.inr ⟨id, err, hg, hparse, hload,
          by rw [m.createMessage_of_error call w _ _ hargs h]⟩
      · exact Or.inl ⟨_, by rw [m.createMessage_of_error call w _ _ hargs h]⟩
      · exact Or.inl ⟨_, by rw [hok _ _ h]⟩
  · intro hne
    have hok : ∀ w1 reference,
        m.resolveReference (call.Argument 1)
          "Second argument must be a message ID string" w = (w1, .ok reference) →
        m.createMessage call w =
          m.callCreateMessage (TrimSpace (call.Argument 0).String) reference [] w1 := by
      intro w1 reference hrr
      rw [m.createMessage_of_ok call w w1 reference hargs hrr, if_neg hne]
    refine ⟨?_, hok⟩
    rcases m.resolveReference_cases (call.Argument 1)
        "Second argument must be a message ID string" w with
      ⟨_, h⟩ | ⟨_, _, h⟩ | ⟨id, _, _, ⟨err, _, h⟩ | ⟨reference, _, _, h⟩ |
        ⟨reference, author, _, _, _, h⟩⟩
    · rw [hok _ _ h, m.callCreateMessage_calls]
      simp [addedCalls]
    · rw [m.createMessage_of_error call w _ _ hargs h]; simp [addedCalls]
    · rw [m.createMessage_of_error call w _ _ hargs h]
      simp [addedCalls, ChatCall.isCreateMessage]
    · rw [m.createMessage_of_error call w _ _ hargs h]
      simp [addedCalls, ChatCall.isCreateMessage]
    · rw [hok _ _ h, m.callCreateMessage_calls]
      simp [addedCalls, ChatCall.isCreateMessage]

/-- C11 fails as stated: in the reference module, `createMessage` with a
content of two spaces and the reference `"9"`, which parses but is not in the
store, raises the Go error of `LoadMessage`, not a type error. -/
theorem C11_counterexample_go_error :
    TrimSpace (Value.string "  ").String = "" ∧
      (referenceModule.createMessage
          { This := .undefined, Arguments := [.string "  ", .string "9"] }
          referenceWorld).2 = .error (.goError "message not found") ∧
      ¬ ∃ msg, (referenceModule.createMessage
          { This := .undefined, Arguments := [.string "  ", .string "9"] }
          referenceWorld).2 = .error (.typeError msg) := by
  refine ⟨rfl, rfl, ?_⟩
  rintro ⟨msg, h⟩
  have h2 : (referenceModule.createMessage
      { This := .undefined, Arguments := [.string "  ", .string "9"] }
      referenceWorld).2 = .error (.goError "message not found") := rfl
  rw [h2] at h
  simp at h


/-- C12, as the code has it: `createMessageWithPageAttachment` does not reject
empty content.  When the content is `undefined`, `null` or empty after trimming
and the page and height checks pass, then whenever the reference block
succeeds the store's `CreateMessage` is called with the empty string as
content; in particular it is the only call made when no reference is given. -/
theorem C12_attachment_allows_empty_content {σ : Type} (m : chatModule σ) (w : World σ)
    (call : FunctionCall) (height : Int) (hargs : 3 ≤ call.Arguments.length)
    (hpage : m.ResolvePage (call.Argument 1).String = true)
    (hheight : m.ExportTo (call.Argument 2) = some height)
    (hne : height ≠ 0) (hle : height ≤ 512)
    (hempty : IsUndefined (call.Argument 0) = true ∨ IsNull (call.Argument 0) = true ∨
      TrimSpace (call.Argument 0).String = "") :
    (∀ w1 reference,
        m.resolveReference (call.Argument 3)
          "Fourth argument must be a message ID string" w = (w1, .ok reference) →
        m.createMessageWithPageAttachment call w =
            m.callCreateMessage "" reference
              [{ ApplicationID := m.ApplicationID, ApplicationVersion := m.ApplicationVersion,
                 PageID := (call.Argument 1).String, Height := height }] w1 ∧
          addedCalls w1 (m.createMessageWithPageAttachment call w).1 =
            [.CreateMessage m.appUser "" reference
              [{ ApplicationID := m.ApplicationID, ApplicationVersion := m.ApplicationVersion,
                 PageID := (call.Argument 1).String, Height := height }]]) ∧
      (referenceGiven (call.Argument 3) = false →
        addedCalls w (m.createMessageWithPageAttachment call w).1 =
          [.CreateMessage m.appUser "" none
            [{ ApplicationID := m.ApplicationID, ApplicationVersion := m.ApplicationVersion,
               PageID := (call.Argument 1).String, Height := height }]]) := by
  have hcontent : (if !IsUndefined (call.Argument 0) && !IsNull (call.Argument 0) then
      TrimSpace (call.Argument 0).String else "") = "" := by
    rcases hempty with h | h | h
    · simp [h]
    · simp [h]
    · simp [h]
  have hok : ∀ w1 reference,
      m.resolveReference (call.Argument 3)
        "Fourth argument must be a message ID string" w = (w1, .ok reference) →
      m.createMessageWithPageAttachment call w =
        m.callCreateMessage "" reference
          [{ ApplicationID := m.ApplicationID, ApplicationVersion := m.ApplicationVersion,
             PageID := (call.Argument 1).String, Height := height }] w1 := by
    intro w1 reference hrr
    rw [m.createMessageWithPageAttachment_of_ok call w w1 reference height hargs hpage hheight
      hne hle hrr, hcontent]
  constructor
  · intro w1 reference hrr
    refine ⟨hok w1 reference hrr, ?_⟩
    rw [hok w1 reference hrr, m.callCreateMessage_calls]
    exact addedCalls_append w1 _ _
  · intro hg
    rcases m.resolveReference_cases (call.Argument 3)
        "Fourth argument must be a message ID string" w with
      ⟨_, h⟩ | ⟨hg2, _, _⟩ | ⟨id, hg2, _⟩
    · rw [hok w none h, m.callCreateMessage_calls]
      exact addedCalls_append w _ _
    · rw [hg] at hg2; simp at hg2
    · rw [hg] at hg2; simp at hg2

/-- C12 fails as stated: in the example module `createMessageWithPageAttachment`
with `undefined` content, and with content of white space only, is not
rejected; `CreateMessage` is called with the empty string and the message is
created. -/
theorem C12_counterexample_empty_content_accepted :
    (exampleModule.createMessageWithPageAttachment
        { This := .undefined, Arguments := [.undefined, .string "home", .int 100] }
        exampleWorld).2 = .ok (.object "") ∧
      addedCalls exampleWorld
        (exampleModule.createMessageWithPageAttachment
          { This := .undefined, Arguments := [.undefined, .string "home", .int 100] }
          exampleWorld).1 =
        [.CreateMessage exampleModule.appUser "" none
          [{ ApplicationID := "app", ApplicationVersion := 1, PageID := "home",
             Height := 100 }]] ∧
      TrimSpace (Value.string " \n").String = "" ∧
      (exampleModule.createMessageWithPageAttachment
        { This := .undefined, Arguments := [.string " \n", .string "home", .int 100] }
        exampleWorld).2 = .ok (.object "") ∧
      (exampleModule.createMessageWithPageAttachment
        { This := .undefined, Arguments := [.string " \n", .string "home", .int 100] }
        exampleWorld).1.store.messages.length = 1 ∧
      exampleModule.createMessage
        { This := .undefined, Arguments := [.string " \n"] } exampleWorld =
        (exampleWorld, .error (.typeError "Message content is empty")) :=
  ⟨rfl, rfl, rfl, rfl, rfl, rfl⟩


/-- What `createMessage` appends to the call log and whether it fails, by the
outcome of the reference block. -/
theorem chatModule.createMessage_added {σ : Type} (m : chatModule σ) (w : World σ)
    (call : FunctionCall) (hargs : 1 ≤ call.Arguments.length) :
    (referenceGiven (call.Argument 1) = false ∧
        ((TrimSpace (call.Argument 0).String = "" ∧
            addedCalls w (m.createMessage call w).1 = [] ∧
            ∃ e, (m.createMessage call w).2 = .error e) ∨
          (TrimSpace (call.Argument 0).String ≠ "" ∧
            addedCalls w (m.createMessage call w).1 =
              [.CreateMessage m.appUser (TrimSpace (call.Argument 0).String) none []]))) ∨
      (referenceGiven (call.Argument 1) = true ∧
        (¬ ∃ id reference author, m.ParseString (call.Argument 1).String = some id ∧
          (m.chatManager.LoadMessage w.store id).2 = .ok reference ∧
          reference.Author = some author ∧ author.IsUnknown = false) ∧
        (∃ e, (m.createMessage call w).2 = .error e) ∧
        (addedCalls w (m.createMessage call w).1 = [] ∨
          ∃ id, addedCalls w (m.createMessage call w).1 = [.LoadMessage id])) ∨
      (referenceGiven (call.Argument 1) = true ∧
        ∃ id reference author, m.ParseString (call.Argument 1).String = some id ∧
          (m.chatManager.LoadMessage w.store id).2 = .ok reference ∧
          reference.Author = some author ∧ author.IsUnknown = false ∧
          ((TrimSpace (call.Argument 0).String = "" ∧
              addedCalls w (m.createMessage call w).1 = [.LoadMessage id] ∧
              ∃ e, (m.createMessage call w).2 = .error e) ∨
            (TrimSpace (call.Argument 0).String ≠ "" ∧
              addedCalls w (m.createMessage call w).1 =
                [.LoadMessage id,
                  .CreateMessage m.appUser (TrimSpace (call.Argument 0).String)
                    (some reference) []]))) := by
  rcases m.resolveReference_cases (call.Argument 1)
      "Second argument must be a message ID string" w with
    ⟨hg, h⟩ | ⟨hg, hparse, h⟩ | ⟨id, hg, hparse, ⟨err, hload, h⟩ |
      ⟨reference, hload, hauthor, h⟩ | ⟨reference, author, hload, hauthor, hunknown, h⟩⟩
  · left
    refine ⟨hg, ?_⟩
    rw [m.createMessage_of_ok call w _ _ hargs h]
    by_cases hc : TrimSpace (call.Argument 0).String = ""
    · left
      rw [if_pos hc]
      exact ⟨hc, addedCalls_self w, _, rfl⟩
    · right
      rw [if_neg hc, m.callCreateMessage_calls]
      exact ⟨hc, addedCalls_append w _ _⟩
  · right; left
    rw [m.createMessage_of_error call w _ _ hargs h]
    refine ⟨hg, ?_, ⟨_, rfl⟩, Or.inl (addedCalls_self w)⟩
    rintro ⟨id, reference, author, hp, _⟩
    rw [hparse] at hp; simp at hp
  · right; left
    rw [m.createMessage_of_error call w _ _ hargs h]
    refine ⟨hg, ?_, ⟨_, rfl⟩, Or.inr ⟨id, addedCalls_append w _ _⟩⟩
    rintro ⟨id2, reference, author, hp, hl, _⟩
    rw [hparse] at hp
    simp only [Option.some.injEq] at hp
    subst hp
    rw [hload] at hl; simp at hl
  · right; left
    rw [m.createMessage_of_error call w _ _ hargs h]
    refine ⟨hg, ?_, ⟨_, rfl⟩, Or.inr ⟨id, addedCalls_append w _ _⟩⟩
    rintro ⟨id2, reference2, author, hp, hl, ha, hu⟩
    rw [hparse] at hp
    simp only [Option.some.injEq] at hp
    subst hp
    rw [hload] at hl
    simp only [Except.ok.injEq] at hl
    subst hl
    rcases hauthor with hnone | ⟨author2, hsome, hunk⟩
    · rw [hnone] at ha; simp at ha
    · rw [hsome] at ha
      simp only [Option.some.injEq] at ha
      subst ha
      rw [hunk] at hu; simp at hu
  · right; right
    refine ⟨hg, id, reference, author, hparse, hload, hauthor, hunknown, ?_⟩
    rw [m.createMessage_of_ok call w _ _ hargs h]
    by_cases hc : TrimSpace (call.Argument 0).String = ""
    · left
      rw [if_pos hc]
      exact ⟨hc, addedCalls_append w _ _, _, rfl⟩
    · right
      rw [if_neg hc, m.callCreateMessage_calls]
      refine ⟨hc, ?_⟩
      simp [addedCalls]


/-- What `createMessageWithPageAttachment` appends to the call log and whether
it fails, by the outcome of the reference block, once the page and height
checks have passed. -/
theorem chatModule.createMessageWithPageAttachment_added {σ : Type} (m : chatModule σ)
    (w : World σ) (call : FunctionCall) (height : Int)
    (hargs : 3 ≤ call.Arguments.length)
    (hpage : m.ResolvePage (call.Argument 1).String = true)
    (hheight : m.ExportTo (call.Argument 2) = some height)
    (hne : height ≠ 0) (hle : height ≤ 512) :
    (referenceGiven (call.Argument 3) = false ∧
        addedCalls w (m.createMessageWithPageAttachment call w).1 =
          [.CreateMessage m.appUser
            (if !IsUndefined (call.Argument 0) && !IsNull (call.Argument 0) then
                  TrimSpace (call.Argument 0).String else "") none
            [{ ApplicationID := m.ApplicationID,
                   ApplicationVersion := m.ApplicationVersion,
                   PageID := (call.Argument 1).String, Height := height }]]) ∨
      (referenceGiven (call.Argument 3) = true ∧
        (¬ ∃ id reference author, m.ParseString (call.Argument 3).String = some id ∧
          (m.chatManager.LoadMessage w.store id).2 = .ok reference ∧
          reference.Author = some author ∧ author.IsUnknown = false) ∧
        (∃ e, (m.createMessageWithPageAttachment call w).2 = .error e) ∧
        (addedCalls w (m.createMessageWithPageAttachment call w).1 = [] ∨
          ∃ id, addedCalls w (m.createMessageWithPageAttachment call w).1 =
            [.LoadMessage id])) ∨
      (referenceGiven (call.Argument 3) = true ∧
        ∃ id reference author, m.ParseString (call.Argument 3).String = some id ∧
          (m.chatManager.LoadMessage w.store id).2 = .ok reference ∧
          reference.Author = some author ∧ author.IsUnknown = false ∧
          addedCalls w (m.createMessageWithPageAttachment call w).1 =
            [.LoadMessage id,
              .CreateMessage m.appUser
                (if !IsUndefined (call.Argument 0) && !IsNull (call.Argument 0) then
                  TrimSpace (call.Argument 0).String else "") (some reference)
                [{ ApplicationID := m.ApplicationID,
                   ApplicationVersion := m.ApplicationVersion,
                   PageID := (call.Argument 1).String, Height := height }]]) := by
  rcases m.resolveReference_cases (call.Argument 3)
      "Fourth argument must be a message ID string" w with
    ⟨hg, h⟩ | ⟨hg, hparse, h⟩ | ⟨id, hg, hparse, ⟨err, hload, h⟩ |
      ⟨reference, hload, hauthor, h⟩ | ⟨reference, author, hload, hauthor, hunknown, h⟩⟩
  · left
    refine ⟨hg, ?_⟩
    rw [m.createMessageWithPageAttachment_of_ok call w _ _ height hargs hpage hheight hne hle h,
      m.callCreateMessage_calls]
    exact addedCalls_append w _ _
  · right; left
    rw [m.createMessageWithPageAttachment_of_error call w _ _ height hargs hpage hheight hne
      hle h]
    refine ⟨hg, ?_, ⟨_, rfl⟩, Or.inl (addedCalls_self w)⟩
    rintro ⟨id, reference, author, hp, _⟩
    rw [hparse] at hp; simp at hp
  · right; left
    rw [m.createMessageWithPageAttachment_of_error call w _ _ height hargs hpage hheight hne
      hle h]
    refine ⟨hg, ?_, ⟨_, rfl⟩, Or.inr ⟨id, addedCalls_append w _ _⟩⟩
    rintro ⟨id2, reference, author, hp, hl, _⟩
    rw [hparse] at hp
    simp only [Option.some.injEq] at hp
    subst hp
    rw [hload] at hl; simp at hl
  · right; left
    rw [m.createMessageWithPageAttachment_of_error call w _ _ height hargs hpage hheight hne
      hle h]
    refine ⟨hg, ?_, ⟨_, rfl⟩, Or.inr ⟨id, addedCalls_append w _ _⟩⟩
    rintro ⟨id2, reference2, author, hp, hl, ha, hu⟩
    rw [hparse] at hp
    simp only [Option.some.injEq] at hp
    subst hp
    rw [hload] at hl
    simp only [Except.ok.injEq] at hl
    subst hl
    rcases hauthor with hnone | ⟨author2, hsome, hunk⟩
    · rw [hnone] at ha; simp at ha
    · rw [hsome] at ha
      simp only [Option.some.injEq] at ha
      subst ha
      rw [hunk] at hu; simp at hu
  · right; right
    refine ⟨hg, id, reference, author, hparse, hload, hauthor, hunknown, ?_⟩
    rw [m.createMessageWithPageAttachment_of_ok call w _ _ height hargs hpage hheight hne hle h,
      m.callCreateMessage_calls]
    simp [addedCalls]

/-- An argument that counts as a given reference is present in the call. -/
theorem FunctionCall.lt_length_of_referenceGiven (call : FunctionCall) (idx : Nat)
    (h : referenceGiven (call.Argument idx) = true) : idx < call.Arguments.length := by
  by_contra hlt
  have : call.Argument idx = .undefined := by
    simp only [FunctionCall.Argument]
    exact List.getD_eq_default _ _ (by omega)
  rw [this] at h
  simp [referenceGiven, IsUndefined] at h


/-- C13: in `createMessage` and in `createMessageWithPageAttachment`, when a
reference argument is given (not `undefined`, not `null`, string form not
empty), the store's `CreateMessage` is called only if the reference parses as
a message ID, `LoadMessage` succeeds for it and the loaded message has an
author that is neither nil nor unknown, and then it is called with that
message as reference; in every other case the call fails and `CreateMessage`
is not called.  When no reference is given, `LoadMessage` is not called, a call
of `CreateMessage` passes no reference, and that call is made once the other
checks of the function pass. -/
theorem C13_reference_must_resolve {σ : Type} (m : chatModule σ) (w : World σ)
    (call : FunctionCall) :
    (referenceGiven (call.Argument 1) = true →
        ((∃ c ∈ addedCalls w (m.createMessage call w).1, c.isCreateMessage = true) →
          ∃ id reference author, m.ParseString (call.Argument 1).String = some id ∧
            (m.chatManager.LoadMessage w.store id).2 = .ok reference ∧
            reference.Author = some author ∧ author.IsUnknown = false ∧
            addedCalls w (m.createMessage call w).1 =
              [.LoadMessage id,
                .CreateMessage m.appUser (TrimSpace (call.Argument 0).String)
                  (some reference) []]) ∧
        ((¬ ∃ id reference author, m.ParseString (call.Argument 1).String = some id ∧
            (m.chatManager.LoadMessage w.store id).2 = .ok reference ∧
            reference.Author = some author ∧ author.IsUnknown = false) →
          (∃ e, (m.createMessage call w).2 = .error e) ∧
            ∀ c ∈ addedCalls w (m.createMessage call w).1, c.isCreateMessage = false)) ∧
      (referenceGiven (call.Argument 1) = false →
        (∀ c ∈ addedCalls w (m.createMessage call w).1, c.isLoadMessage = false) ∧
        (∀ c ∈ addedCalls w (m.createMessage call w).1, c.isCreateMessage = true →
          c = .CreateMessage m.appUser (TrimSpace (call.Argument 0).String) none []) ∧
        (1 ≤ call.Arguments.length → TrimSpace (call.Argument 0).String ≠ "" →
          addedCalls w (m.createMessage call w).1 =
            [.CreateMessage m.appUser (TrimSpace (call.Argument 0).String) none []])) ∧
      (referenceGiven (call.Argument 3) = true →
        ((∃ c ∈ addedCalls w (m.createMessageWithPageAttachment call w).1,
            c.isCreateMessage = true) →
          ∃ id reference author, m.ParseString (call.Argument 3).String = some id ∧
            (m.chatManager.LoadMessage w.store id).2 = .ok reference ∧
            reference.Author = some author ∧ author.IsUnknown = false ∧
            ∃ content attachments,
              addedCalls w (m.createMessageWithPageAttachment call w).1 =
                [.LoadMessage id,
                  .CreateMessage m.appUser content (some reference) attachments]) ∧
        ((¬ ∃ id reference author, m.ParseString (call.Argument 3).String = some id ∧
            (m.chatManager.LoadMessage w.store id).2 = .ok reference ∧
            reference.Author = some author ∧ author.IsUnknown = false) →
          (∃ e, (m.createMessageWithPageAttachment call w).2 = .error e) ∧
            ∀ c ∈ addedCalls w (m.createMessageWithPageAttachment call w).1,
              c.isCreateMessage = false)) ∧
      (referenceGiven (call.Argument 3) = false →
        (∀ c ∈ addedCalls w (m.createMessageWithPageAttachment call w).1,
          c.isLoadMessage = false) ∧
        (∀ c ∈ addedCalls w (m.createMessageWithPageAttachment call w).1,
          c.isCreateMessage = true →
          ∃ content attachments, c = .CreateMessage m.appUser content none attachments) ∧
        (∀ height, 3 ≤ call.Arguments.length →
          m.ResolvePage (call.Argument 1).String = true →
          m.ExportTo (call.Argument 2) = some height → height ≠ 0 → height ≤ 512 →
          addedCalls w (m.createMessageWithPageAttachment call w).1 =
            [.CreateMessage m.appUser
              (if !IsUndefined (call.Argument 0) && !IsNull (call.Argument 0) then
                TrimSpace (call.Argument 0).String else "") none
              [{ ApplicationID := m.ApplicationID,
                 ApplicationVersion := m.ApplicationVersion,
                 PageID := (call.Argument 1).String, Height := height }]])) := by
  refine ⟨?_, ?_, ?_, ?_⟩
  · intro hg
    have hargs : 1 ≤ call.Arguments.length := by
      have := call.lt_length_of_referenceGiven 1 hg
      omega
    rcases m.createMessage_added w call hargs with
      ⟨hg2, _⟩ | ⟨_, hno, herr, hadd⟩ | ⟨_, id, reference, author, hp, hl, ha, hu, hcase⟩
    · rw [hg] at hg2; simp at hg2
    · constructor
      · rintro ⟨c, hc, hcreate⟩
        rcases hadd with h | ⟨id, h⟩
        · rw [h] at hc; simp at hc
        · rw [h] at hc
          simp only [List.mem_singleton] at hc
          subst hc
          simp [ChatCall.isCreateMessage] at hcreate
      · intro _
        refine ⟨herr, ?_⟩
        rcases hadd with h | ⟨id, h⟩
        · rw [h]; simp
        · rw [h]; simp [ChatCall.isCreateMessage]
    · constructor
      · rintro ⟨c, hc, hcreate⟩
        rcases hcase with ⟨_, hadd, _⟩ | ⟨_, hadd⟩
        · rw [hadd] at hc
          simp only [List.mem_singleton] at hc
          subst hc
          simp [ChatCall.isCreateMessage] at hcreate
        · exact ⟨id, reference, author, hp, hl, ha, hu, hadd⟩
      · intro hno
        exact absurd ⟨id, reference, author, hp, hl, ha, hu⟩ hno
  · intro hg
    by_cases hargs : 1 ≤ call.Arguments.length
    · rcases m.createMessage_added w call hargs with
        ⟨_, ⟨_, hadd, _⟩ | ⟨hc, hadd⟩⟩ | ⟨hg2, _⟩ | ⟨hg2, _⟩
      · rw [hadd]
        exact ⟨by simp, by simp, fun _ hne => absurd ‹_› hne⟩
      · rw [hadd]
        exact ⟨by simp [ChatCall.isLoadMessage], by simp, fun _ _ => rfl⟩
      · rw [hg] at hg2; simp at hg2
      · rw [hg] at hg2; simp at hg2
    · have h1 : call.Arguments.length < 1 := by omega
      have hres : m.createMessage call w = (w, .error (.typeError "Missing argument")) := by
        simp only [chatModule.createMessage, h1, if_true]
      rw [hres, addedCalls_self]
      exact ⟨by simp, by simp, fun h => absurd h hargs⟩
  · intro hg
    by_cases hchecks : 3 ≤ call.Arguments.length ∧
        m.ResolvePage (call.Argument 1).String = true ∧
        ∃ height, m.ExportTo (call.Argument 2) = some height ∧ height ≠ 0 ∧ height ≤ 512
    · obtain ⟨hargs, hpage, height, hheight, hne, hle⟩ := hchecks
      rcases m.createMessageWithPageAttachment_added w call height hargs hpage hheight hne
          hle with
        ⟨hg2, _⟩ | ⟨_, hno, herr, hadd⟩ | ⟨_, id, reference, author, hp, hl, ha, hu, hadd⟩
      · rw [hg] at hg2; simp at hg2
      · constructor
        · rintro ⟨c, hc, hcreate⟩
          rcases hadd with h | ⟨id, h⟩
          · rw [h] at hc; simp at hc
          · rw [h] at hc
            simp only [List.mem_singleton] at hc
            subst hc
            simp [ChatCall.isCreateMessage] at hcreate
        · intro _
          refine ⟨herr, ?_⟩
          rcases hadd with h | ⟨id, h⟩
          · rw [h]; simp
          · rw [h]; simp [ChatCall.isCreateMessage]
      · constructor
        · intro _
          exact ⟨id, reference, author, hp, hl, ha, hu, _, _, hadd⟩
        · intro hno
          exact absurd ⟨id, reference, author, hp, hl, ha, hu⟩ hno
    · obtain ⟨msg, hres⟩ := m.createMessageWithPageAttachment_early call w hchecks
      rw [hres, addedCalls_self]
      exact ⟨by simp, fun _ => ⟨⟨_, rfl⟩, by simp⟩⟩
  · intro hg
    by_cases hchecks : 3 ≤ call.Arguments.length ∧
        m.ResolvePage (call.Argument 1).String = true ∧
        ∃ height, m.ExportTo (call.Argument 2) = some height ∧ height ≠ 0 ∧ height ≤ 512
    · obtain ⟨hargs, hpage, height, hheight, hne, hle⟩ := hchecks
      rcases m.createMessageWithPageAttachment_added w call height hargs hpage hheight hne
          hle with
        ⟨_, hadd⟩ | ⟨hg2, _⟩ | ⟨hg2, _⟩
      · refine ⟨by rw [hadd]; simp [ChatCall.isLoadMessage], ?_, ?_⟩
        · rw [hadd]
          intro c hc _
          simp only [List.mem_singleton] at hc
          exact ⟨_, _, hc⟩
        · intro height2 _ _ hheight2 _ _
          rw [hheight] at hheight2
          simp only [Option.some.injEq] at hheight2
          subst hheight2
          exact hadd
      · rw [hg] at hg2; simp at hg2
      · rw [hg] at hg2; simp at hg2
    · obtain ⟨msg, hres⟩ := m.createMessageWithPageAttachment_early call w hchecks
      rw [hres, addedCalls_self]
      refine ⟨by simp, by simp, ?_⟩
      intro height hargs hpage hheight hne hle
      exact absurd ⟨hargs, hpage, height, hheight, hne, hle⟩ hchecks



/-! ## Theorems: the configuration manager -/

/-- The change, if any, that `AllClientConfigurationChanges` appends when it
visits an entry of the map. -/
theorem Manager.AllClientConfigurationChanges_foldl (h : Configurables)
    (order : List (ConfigurationKey × Nat)) (acc : List ConfigurationChange) :
    order.foldl
        (fun changes e =>
          match h.objects[e.2]? with
          | none => changes
          | some c =>
            match c.ValueToProtoIfNonDefault with
            | none => changes
            | some change => changes ++ [{ ConfigurationChange := change }])
        acc =
      acc ++ order.filterMap (fun e =>
        (h.objects[e.2]?).bind (fun c =>
          c.ValueToProtoIfNonDefault.map ConfigurationChange.mk)) := by
  induction order generalizing acc with
  | nil => simp
  | cons e rest ih =>
    rw [List.foldl_cons, ih]
    cases hobj : h.objects[e.2]? with
    | none => simp [List.filterMap_cons, hobj]
    | some c =>
      cases hv : c.ValueToProtoIfNonDefault with
      | none => simp [List.filterMap_cons, hobj, hv]
      | some change => simp [List.filterMap_cons, hobj, hv]

theorem Manager.AllClientConfigurationChanges_eq_filterMap (m : Manager) (h : Configurables)
    (order : List (ConfigurationKey × Nat)) :
    m.AllClientConfigurationChanges h order =
      order.filterMap (fun e =>
        (h.objects[e.2]?).bind (fun c =>
          c.ValueToProtoIfNonDefault.map ConfigurationChange.mk)) := by
  unfold Manager.AllClientConfigurationChanges
  rw [Manager.AllClientConfigurationChanges_foldl]
  simp

/-- C14: on the manager of `New`, whatever the state of its three configurables
and in whatever order the map is visited, `AllClientConfigurationChanges`
returns, up to order, the changes of the keys whose `ValueToProtoIfNonDefault`
is not nil: no change twice, a change of a key exactly when that key has one,
and as many changes as there are such keys; on the objects that `New` has just
created it returns the empty list. -/
theorem C14_all_changes_are_the_non_default_keys (h : Configurables)
    (c0 c1 c2 : ClientConfigurable) (order : List (ConfigurationKey × Nat))
    (hobjects : h.objects = [c0, c1, c2])
    (ht0 : c0.protoTransformer = .ConfigurationChange_ApplicationName)
    (ht1 : c1.protoTransformer = .ConfigurationChange_LogoUrl)
    (ht2 : c2.protoTransformer = .ConfigurationChange_FaviconUrl)
    (horder : order.Perm New.1.clientConfigs) :
    (New.1.AllClientConfigurationChanges h order).Perm
        (([c0, c1, c2].filterMap ClientConfigurable.ValueToProtoIfNonDefault).map
          ConfigurationChange.mk) ∧
      (New.1.AllClientConfigurationChanges h order).Nodup ∧
      (∀ change, { ConfigurationChange := change } ∈
          New.1.AllClientConfigurationChanges h order ↔
        (c0.ValueToProtoIfNonDefault = some change ∨
          c1.ValueToProtoIfNonDefault = some change ∨
          c2.ValueToProtoIfNonDefault = some change)) ∧
      (New.1.AllClientConfigurationChanges h order).length =
        (if c0.ValueToProtoIfNonDefault = none then 0 else 1) +
          (if c1.ValueToProtoIfNonDefault = none then 0 else 1) +
          (if c2.ValueToProtoIfNonDefault = none then 0 else 1) ∧
      New.1.AllClientConfigurationChanges New.2 order = [] := by
  have hperm : (New.1.AllClientConfigurationChanges h order).Perm
      (([c0, c1, c2].filterMap ClientConfigurable.ValueToProtoIfNonDefault).map
        ConfigurationChange.mk) := by
    rw [Manager.AllClientConfigurationChanges_eq_filterMap]
    refine (List.Perm.filterMap _ horder).trans ?_
    apply List.Perm.of_eq
    simp only [New, hobjects]
    cases hv0 : c0.ValueToProtoIfNonDefault <;> cases hv1 : c1.ValueToProtoIfNonDefault <;>
      cases hv2 : c2.ValueToProtoIfNonDefault <;> simp [List.filterMap_cons, hv0, hv1, hv2]
  have hv0 : ∀ change, c0.ValueToProtoIfNonDefault = some change →
      change = .ConfigurationChange_ApplicationName c0.EffectiveValue := by
    intro change hc
    unfold ClientConfigurable.ValueToProtoIfNonDefault at hc
    split_ifs at hc
    rw [ht0] at hc
    exact (Option.some.inj hc).symm
  have hv1 : ∀ change, c1.ValueToProtoIfNonDefault = some change →
      change = .ConfigurationChange_LogoUrl c1.EffectiveValue := by
    intro change hc
    unfold ClientConfigurable.ValueToProtoIfNonDefault at hc
    split_ifs at hc
    rw [ht1] at hc
    exact (Option.some.inj hc).symm
  have hv2 : ∀ change, c2.ValueToProtoIfNonDefault = some change →
      change = .ConfigurationChange_FaviconUrl c2.EffectiveValue := by
    intro change hc
    unfold ClientConfigurable.ValueToProtoIfNonDefault at hc
    split_ifs at hc
    rw [ht2] at hc
    exact (Option.some.inj hc).symm
  refine ⟨hperm, ?_, ?_, ?_, ?_⟩
  · rw [hperm.nodup_iff]
    cases h0 : c0.ValueToProtoIfNonDefault <;> cases h1 : c1.ValueToProtoIfNonDefault <;>
      cases h2 : c2.ValueToProtoIfNonDefault <;>
      simp [List.filterMap_cons, h0, h1, h2]
    all_goals
      first
      | (rw [hv0 _ h0, hv1 _ h1, hv2 _ h2]; simp)
      | (rw [hv0 _ h0, hv1 _ h1]; simp)
      | (rw [hv0 _ h0, hv2 _ h2]; simp)
      | (rw [hv1 _ h1, hv2 _ h2]; simp)
  · intro change
    rw [hperm.mem_iff]
    cases h0 : c0.ValueToProtoIfNonDefault <;> cases h1 : c1.ValueToProtoIfNonDefault <;>
      cases h2 : c2.ValueToProtoIfNonDefault <;>
      simp [List.filterMap_cons, h0, h1, h2, eq_comm]
  · rw [hperm.length_eq]
    cases h0 : c0.ValueToProtoIfNonDefault <;> cases h1 : c1.ValueToProtoIfNonDefault <;>
      cases h2 : c2.ValueToProtoIfNonDefault <;>
      simp [List.filterMap_cons, h0, h1, h2]
  · rw [Manager.AllClientConfigurationChanges_eq_filterMap]
    have hnil : New.1.clientConfigs.filterMap (fun e =>
        (New.2.objects[e.2]?).bind (fun c =>
          c.ValueToProtoIfNonDefault.map ConfigurationChange.mk)) = [] := rfl
    exact List.Perm.eq_nil (hnil ▸ List.Perm.filterMap _ horder)


theorem New_configs_lookup (key : ConfigurationKey) :
    New.1.configs.lookup key =
      if key = ApplicationName then some 0
      else if key = LogoURL then some 1
      else if key = FaviconURL then some 2
      else none := by
  have hconfigs : New.1.configs = [(0, 0), (1, 1), (2, 2)] := rfl
  rw [hconfigs]
  unfold ApplicationName LogoURL FaviconURL
  by_cases h0 : key = 0
  · subst h0; rfl
  · by_cases h1 : key = 1
    · subst h1; rfl
    · by_cases h2 : key = 2
      · subst h2; rfl
      · have b0 : (key == 0) = false := by simpa using h0
        have b1 : (key == 1) = false := by simpa using h1
        have b2 : (key == 2) = false := by simpa using h2
        simp only [List.lookup, b0, b1, b2, h0, h1, h2, if_false]

theorem ClientConfigurable.setEntries_protoTransformer (c : ClientConfigurable)
    (entries : List (String × String)) :
    (c.setEntries entries).protoTransformer = c.protoTransformer := by
  unfold ClientConfigurable.setEntries
  split <;> rfl

/-- `ResetConfigurable` on the manager of `New`, key by key. -/
theorem New_ResetConfigurable (h : Configurables) (c0 c1 c2 : ClientConfigurable)
    (key : ConfigurationKey) (applicationID : String)
    (hobjects : h.objects = [c0, c1, c2]) :
    New.1.ResetConfigurable key applicationID h =
      if key = ApplicationName then
        ({ objects := [c0.Remove applicationID, c1, c2],
           invoked := h.invoked ++ [.Remove 0 applicationID] }, none)
      else if key = LogoURL then
        ({ objects := [c0, c1.Remove applicationID, c2],
           invoked := h.invoked ++ [.Remove 1 applicationID] }, none)
      else if key = FaviconURL then
        ({ objects := [c0, c1, c2.Remove applicationID],
           invoked := h.invoked ++ [.Remove 2 applicationID] }, none)
      else (h, some "unknown configurable") := by
  unfold Manager.ResetConfigurable
  rw [New_configs_lookup]
  split_ifs <;> simp [Configurables.Remove, hobjects]

/-- `SetConfigurable` on the manager of `New`, key by key. -/
theorem New_SetConfigurable (h : Configurables) (c0 c1 c2 : ClientConfigurable)
    (key : ConfigurationKey) (applicationID : String) (value : GoValue)
    (hobjects : h.objects = [c0, c1, c2]) :
    SetConfigurable New.1 key applicationID value h =
      if key = ApplicationName ∨ key = LogoURL ∨ key = FaviconURL then
        match value with
        | .string v =>
          if key = ApplicationName then
            ({ objects := [c0.Push applicationID v, c1, c2],
               invoked := h.invoked ++ [.Push 0 applicationID v] }, none)
          else if key = LogoURL then
            ({ objects := [c0, c1.Push applicationID v, c2],
               invoked := h.invoked ++ [.Push 1 applicationID v] }, none)
          else
            ({ objects := [c0, c1, c2.Push applicationID v],
               invoked := h.invoked ++ [.Push 2 applicationID v] }, none)
        | _ => (h, some "wrong value type for configurable")
      else (h, some "unknown configurable") := by
  unfold SetConfigurable
  rw [New_configs_lookup]
  simp only [ApplicationName, LogoURL, FaviconURL]
  by_cases h0 : key = 0
  · subst h0
    cases value <;> simp [Configurables.Push, hobjects]
  · by_cases h1 : key = 1
    · subst h1
      cases value <;> simp [Configurables.Push, hobjects]
    · by_cases h2 : key = 2
      · subst h2
        cases value <;> simp [Configurables.Push, hobjects]
      · simp [h0, h1, h2]

theorem New_FromNew : New.2.FromNew :=
  ⟨_, _, _, rfl, rfl, rfl, rfl⟩

/-- `ResetConfigurable` and `SetConfigurable` keep the objects of `New`. -/
theorem FromNew_preserved (h : Configurables) (key : ConfigurationKey)
    (applicationID : String) (value : GoValue) (hfrom : h.FromNew) :
    (New.1.ResetConfigurable key applicationID h).1.FromNew ∧
      (SetConfigurable New.1 key applicationID value h).1.FromNew := by
  obtain ⟨c0, c1, c2, hobjects, ht0, ht1, ht2⟩ := hfrom
  have hfrom : h.FromNew := ⟨c0, c1, c2, hobjects, ht0, ht1, ht2⟩
  constructor
  · rw [New_ResetConfigurable h c0 c1 c2 key applicationID hobjects]
    split_ifs
    · exact ⟨_, _, _, rfl, by rw [ClientConfigurable.Remove,
        ClientConfigurable.setEntries_protoTransformer, ht0], ht1, ht2⟩
    · exact ⟨_, _, _, rfl, ht0, by rw [ClientConfigurable.Remove,
        ClientConfigurable.setEntries_protoTransformer, ht1], ht2⟩
    · exact ⟨_, _, _, rfl, ht0, ht1, by rw [ClientConfigurable.Remove,
        ClientConfigurable.setEntries_protoTransformer, ht2]⟩
    · exact hfrom
  · rw [New_SetConfigurable h c0 c1 c2 key applicationID value hobjects]
    cases value with
    | string v =>
      simp only
      split_ifs
      · exact ⟨_, _, _, rfl, by rw [ClientConfigurable.Push,
          ClientConfigurable.setEntries_protoTransformer, ht0], ht1, ht2⟩
      · exact ⟨_, _, _, rfl, ht0, by rw [ClientConfigurable.Push,
          ClientConfigurable.setEntries_protoTransformer, ht1], ht2⟩
      · exact ⟨_, _, _, rfl, ht0, ht1, by rw [ClientConfigurable.Push,
          ClientConfigurable.setEntries_protoTransformer, ht2]⟩
      · exact hfrom
    | int v =>
      simp only
      split_ifs <;> exact hfrom
    | bool v =>
      simp only
      split_ifs <;> exact hfrom

/-- C15: on the manager of `New`, with its three configurable objects in any
state, `ResetConfigurable` and `SetConfigurable` return an error for a key
that is none of `ApplicationName`, `LogoURL`, `FaviconURL`, and then call
neither `Push` nor `Remove` and leave every object as it was; for each of the
three keys `ResetConfigurable` returns nil after one call of `Remove` for the
owner, on the configurable of that key and on no other. -/
theorem C15_unknown_key_is_an_error (h : Configurables) (c0 c1 c2 : ClientConfigurable)
    (key : ConfigurationKey) (applicationID : String) (value : GoValue)
    (hobjects : h.objects = [c0, c1, c2]) :
    ((key ≠ ApplicationName ∧ key ≠ LogoURL ∧ key ≠ FaviconURL) →
        New.1.ResetConfigurable key applicationID h = (h, some "unknown configurable") ∧
        SetConfigurable New.1 key applicationID value h =
          (h, some "unknown configurable")) ∧
      New.1.ResetConfigurable ApplicationName applicationID h =
        ({ objects := [c0.Remove applicationID, c1, c2],
           invoked := h.invoked ++ [.Remove 0 applicationID] }, none) ∧
      New.1.ResetConfigurable LogoURL applicationID h =
        ({ objects := [c0, c1.Remove applicationID, c2],
           invoked := h.invoked ++ [.Remove 1 applicationID] }, none) ∧
      New.1.ResetConfigurable FaviconURL applicationID h =
        ({ objects := [c0, c1, c2.Remove applicationID],
           invoked := h.invoked ++ [.Remove 2 applicationID] }, none) := by
  refine ⟨?_, ?_, ?_, ?_⟩
  · rintro ⟨h0, h1, h2⟩
    constructor
    · rw [New_ResetConfigurable h c0 c1 c2 key applicationID hobjects, if_neg h0, if_neg h1,
        if_neg h2]
    · rw [New_SetConfigurable h c0 c1 c2 key applicationID value hobjects]
      simp [h0, h1, h2]
  · rw [New_ResetConfigurable h c0 c1 c2 _ applicationID hobjects, if_pos rfl]
  · rw [New_ResetConfigurable h c0 c1 c2 _ applicationID hobjects]
    simp [ApplicationName, LogoURL]
  · rw [New_ResetConfigurable h c0 c1 c2 _ applicationID hobjects]
    simp [ApplicationName, LogoURL, FaviconURL]


/-! ## The later theorems at concrete inputs -/

/-- C11 in the example module: content of white space only is rejected for
empty content, and padded content reaches `CreateMessage` trimmed. -/
theorem C11_witness :
    exampleModule.createMessage
        { This := .undefined, Arguments := [.string " \n"] } exampleWorld =
      (exampleWorld, .error (.typeError "Message content is empty")) ∧
      exampleModule.createMessage
        { This := .undefined, Arguments := [.string " hi "] } exampleWorld =
        exampleModule.callCreateMessage "hi" none [] exampleWorld :=
  ⟨((C11_createMessage_content exampleModule exampleWorld
      { This := .undefined, Arguments := [.string " \n"] } (by decide)).1 rfl).2.2.2
      exampleWorld none rfl,
    ((C11_createMessage_content exampleModule exampleWorld
      { This := .undefined, Arguments := [.string " hi "] } (by decide)).2 (by decide)).2
      exampleWorld none rfl⟩

/-- C12 in the example module: `undefined` content with a published page and
height `100` reaches `CreateMessage` with the empty string. -/
theorem C12_witness :
    addedCalls exampleWorld
        (exampleModule.createMessageWithPageAttachment
          { This := .undefined, Arguments := [.undefined, .string "home", .int 100] }
          exampleWorld).1 =
      [.CreateMessage exampleModule.appUser "" none
        [{ ApplicationID := "app", ApplicationVersion := 1, PageID := "home",
           Height := 100 }]] :=
  (C12_attachment_allows_empty_content exampleModule exampleWorld
    { This := .undefined, Arguments := [.undefined, .string "home", .int 100] } 100
    (by decide) rfl rfl (by decide) (by decide) (Or.inl rfl)).2 rfl

/-- C13 in the reference module: a reference to the user message `7` is looked
up and passed on, a reference to the system message `8` fails without a call
of `CreateMessage`, and without a reference the message is created with none. -/
theorem C13_witness :
    (∃ id reference author, referenceModule.ParseString "7" = some id ∧
        (referenceModule.chatManager.LoadMessage referenceWorld.store id).2 = .ok reference ∧
        reference.Author = some author ∧ author.IsUnknown = false ∧
        addedCalls referenceWorld
            (referenceModule.createMessage
              { This := .undefined, Arguments := [.string " hi ", .string "7"] }
              referenceWorld).1 =
          [.LoadMessage id, .CreateMessage referenceModule.appUser "hi" (some reference) []]) ∧
      ((∃ e, (referenceModule.createMessage
            { This := .undefined, Arguments := [.string " hi ", .string "8"] }
            referenceWorld).2 = .error e) ∧
        ∀ c ∈ addedCalls referenceWorld
            (referenceModule.createMessage
              { This := .undefined, Arguments := [.string " hi ", .string "8"] }
              referenceWorld).1, c.isCreateMessage = false) ∧
      addedCalls referenceWorld
          (referenceModule.createMessage
            { This := .undefined, Arguments := [.string " hi "] } referenceWorld).1 =
        [.CreateMessage referenceModule.appUser "hi" none []] :=
  ⟨((C13_reference_must_resolve referenceModule referenceWorld
      { This := .undefined, Arguments := [.string " hi ", .string "7"] }).1 rfl).1
      ⟨.CreateMessage referenceModule.appUser "hi" (some userMessage) [],
        List.Mem.tail _ (List.Mem.head _), rfl⟩,
    ((C13_reference_must_resolve referenceModule referenceWorld
      { This := .undefined, Arguments := [.string " hi ", .string "8"] }).1 rfl).2
      (by
        rintro ⟨id, reference, author, hp, hl, ha, _⟩
        have hid : some 8 = some id := hp
        cases hid
        have hmsg : (Except.ok systemMessage : Except String Message) = .ok reference := hl
        cases hmsg
        have hnone : (none : Option User) = some author := ha
        cases hnone),
    ((C13_reference_must_resolve referenceModule referenceWorld
      { This := .undefined, Arguments := [.string " hi "] }).2.1 rfl).2.2
      (by decide) (by decide)⟩

/-- C14 on the objects of `New` after a logo URL was pushed, visiting the map
in reverse: the logo change is returned, and nothing on the fresh objects. -/
theorem C14_witness :
    { ConfigurationChange := .ConfigurationChange_LogoUrl "https://example.org/logo.png" } ∈
        New.1.AllClientConfigurationChanges exampleConfigurables New.1.clientConfigs.reverse ∧
      (New.1.AllClientConfigurationChanges exampleConfigurables
        New.1.clientConfigs.reverse).Nodup ∧
      New.1.AllClientConfigurationChanges New.2 New.1.clientConfigs.reverse = [] :=
  ⟨((C14_all_changes_are_the_non_default_keys exampleConfigurables
      (newClientConfigurable "" .ConfigurationChange_ApplicationName) exampleLogo
      (newClientConfigurable "" .ConfigurationChange_FaviconUrl) New.1.clientConfigs.reverse
      rfl rfl rfl rfl (List.reverse_perm _)).2.2.1 _).2 (Or.inr (Or.inl rfl)),
    (C14_all_changes_are_the_non_default_keys exampleConfigurables
      (newClientConfigurable "" .ConfigurationChange_ApplicationName) exampleLogo
      (newClientConfigurable "" .ConfigurationChange_FaviconUrl) New.1.clientConfigs.reverse
      rfl rfl rfl rfl (List.reverse_perm _)).2.1,
    (C14_all_changes_are_the_non_default_keys exampleConfigurables
      (newClientConfigurable "" .ConfigurationChange_ApplicationName) exampleLogo
      (newClientConfigurable "" .ConfigurationChange_FaviconUrl) New.1.clientConfigs.reverse
      rfl rfl rfl rfl (List.reverse_perm _)).2.2.2.2⟩

/-- C15 on the objects of `New` after a logo URL was pushed: key `7` is an
error for both operations and changes nothing, and resetting `LogoURL` calls
`Remove` on the logo configurable only. -/
theorem C15_witness :
    New.1.ResetConfigurable 7 "app" exampleConfigurables =
        (exampleConfigurables, some "unknown configurable") ∧
      SetConfigurable New.1 7 "app" (.string "x") exampleConfigurables =
        (exampleConfigurables, some "unknown configurable") ∧
      New.1.ResetConfigurable LogoURL "app" exampleConfigurables =
        ({ objects :=
             [newClientConfigurable "" .ConfigurationChange_ApplicationName,
              exampleLogo.Remove "app",
              newClientConfigurable "" .ConfigurationChange_FaviconUrl],
           invoked := exampleConfigurables.invoked ++ [.Remove 1 "app"] }, none) :=
  ⟨((C15_unknown_key_is_an_error exampleConfigurables
      (newClientConfigurable "" .ConfigurationChange_ApplicationName) exampleLogo
      (newClientConfigurable "" .ConfigurationChange_FaviconUrl) 7 "app" (.string "x") rfl).1
      ⟨by decide, by decide, by decide⟩).1,
    ((C15_unknown_key_is_an_error exampleConfigurables
      (newClientConfigurable "" .ConfigurationChange_ApplicationName) exampleLogo
      (newClientConfigurable "" .ConfigurationChange_FaviconUrl) 7 "app" (.string "x") rfl).1
      ⟨by decide, by decide, by decide⟩).2,
    (C15_unknown_key_is_an_error exampleConfigurables
      (newClientConfigurable "" .ConfigurationChange_ApplicationName) exampleLogo
      (newClientConfigurable "" .ConfigurationChange_FaviconUrl) 7 "app" (.string "x")
      rfl).2.2.1⟩

/-- C17 on a fresh entry: started at time `5` and completed by its timer, and
started at a time more than `2 ^ 63` nanoseconds after the zero time. -/
theorem C17_witness :
    (((EntryState.init exampleInfo).run [.play 5, .expire]).run
        [.expire]).entry.stoppedPlaying = 0 ∧
      (((EntryState.init exampleInfo).run [.play 5, .expire]).run
        [.expire]).entry.PlayedFor 1000 = Time.Sub 0 5 ∧
      (((EntryState.init exampleInfo).run [.play 5, .expire]).run
        [.expire]).entry.PlayedFor 1000 ≠ exampleInfo.Length ∧
      (((EntryState.init exampleInfo).run [.play 63900000000000000000, .expire]).run
        [.expire]).entry.PlayedFor 63900000000000001000 = minDuration :=
  ⟨(C17_PlayedFor_after_timer_expiry (EntryState.init exampleInfo) 5 1000 [.expire] rfl rfl
      (by decide) (by decide)).2.1,
    (C17_PlayedFor_after_timer_expiry (EntryState.init exampleInfo) 5 1000 [.expire] rfl rfl
      (by decide) (by decide)).2.2.1,
    (C17_PlayedFor_after_timer_expiry (EntryState.init exampleInfo) 5 1000 [.expire] rfl rfl
      (by decide) (by decide)).2.2.2.2.1 (by decide),
    (C17_PlayedFor_after_timer_expiry (EntryState.init exampleInfo) 63900000000000000000
      63900000000000001000 [.expire] rfl rfl (by decide) (by decide)).2.2.2.2.2.2
      (by decide)⟩


/-! ## Theorems: the timer goroutine against `Stop` -/

/-- The three statements of the goroutine, run without interruption, are the
timer body of the sequential model. -/
theorem RaceState.timer_alone (e : CommonQueueEntry) (now : Time) :
    ((RaceState.start e).run now [.timer, .timer, .timer]).entry = e.timerExpired := by
  by_cases h : e.Playing = true
  · simp [RaceState.run, RaceState.step, RaceState.start, CommonQueueEntry.timerExpired, h]
  · simp only [Bool.not_eq_true] at h
    simp [RaceState.run, RaceState.step, RaceState.start, CommonQueueEntry.timerExpired, h]

/-- The four statements of `Stop`, run without interruption, are `Stop`. -/
theorem RaceState.stop_alone (e : CommonQueueEntry) (now : Time) :
    ((RaceState.start e).run now [.stop, .stop, .stop, .stop]).entry = e.Stop now := by
  by_cases h : e.Playing = true
  · simp [RaceState.run, RaceState.step, RaceState.start, CommonQueueEntry.Stop, h]
  · simp only [Bool.not_eq_true] at h
    simp [RaceState.run, RaceState.step, RaceState.start, CommonQueueEntry.Stop, h]

end JungleTV
